import Mathlib

/-!
Verification development for the bi_counter repository (src/main.py,
class BinarySearchFileCounter).  Timestamps and instants are modelled as
integers (the code uses POSIX mtime floats purely for ordering and
comparison, never for arithmetic), tier names, device names, approval ids,
statuses and decisions as strings, exactly as the Python code stores them.
Python dicts keyed by strings are modelled as association lists with
dict-style lookup / set / delete operations.
-/

namespace BiCounter

/-! ## Data model (mirrors the JSON documents of main.py) -/

/-- Result of binary_search_file_count (main.py:302). -/
structure FileCounts where
  total_files : Nat
  historical_files : Nat
  new_files : Nat
deriving Repr, DecidableEq

/-- Per-device record stored in state["devices"] (initialize_device_state,
main.py:495; only the fields the scanner reads or writes are kept; the
purely informational fields such as config_used are omitted). -/
structure DeviceState where
  current_tier : String
  count : Nat
  tier_start_date : Int
  approval_status : String
  total_files : Nat
  historical_files : Nat
  device_production_start_date : Int
  pending_approval_id : Option String
deriving Repr, DecidableEq

/-- An approval request record (create_approval_request, main.py:563). -/
structure ApprovalRequest where
  approval_id : String
  device_name : String
  current_tier : String
  proposed_tier : String
  unit_count : Nat
  request_date : Int
  status : String
  decision_date : Option Int
  approver : Option String
deriving Repr, DecidableEq

/-- The pending_approvals.json document (main.py:203): pending is a dict
keyed by approval id, history is an append-only list. -/
structure PendingApprovals where
  pending : List (String × ApprovalRequest)
  history : List ApprovalRequest
deriving Repr, DecidableEq

/-- The state.json document (create_initial_state, main.py:185). -/
structure ScanState where
  last_scan : Option Int
  bootstrap_completed : Bool
  devices : List (String × DeviceState)
deriving Repr, DecidableEq

/-- config["tier_requirements"] (main.py:529). -/
structure TierRequirements where
  req24h_to_12h : Nat
  req12h_to_6h : Nat
  req6h_to_3h : Nat
  req3h_to_2h : Nat
deriving Repr, DecidableEq

/-- The slice of config.json the counting/advancement engine reads. -/
structure Config where
  bootstrap_mode : Bool
  excluded_tiers : List String
  tier_requirements : TierRequirements
deriving Repr, DecidableEq

/-- Per-device configuration (config["devices"][name]), with the
production start date already resolved by get_device_production_start_date. -/
structure DeviceConfig where
  enabled : Bool
  current_tier : String
  production_start_date : Int
deriving Repr, DecidableEq

/-! ## Dict operations on association lists -/

/-- Python dict read d.get(k) / d[k]. -/
def lookupKey {α : Type} (k : String) : List (String × α) → Option α
  | [] => none
  | p :: t => if p.1 = k then some p.2 else lookupKey k t

/-- Python dict write d[k] = v (replaces the entry if the key is present,
appends otherwise). -/
def setKey {α : Type} (k : String) (v : α) : List (String × α) → List (String × α)
  | [] => [(k, v)]
  | p :: t => if p.1 = k then (k, v) :: t else p :: setKey k v t

/-- Python dict delete: del d[k]. -/
def removeKey {α : Type} (k : String) (l : List (String × α)) : List (String × α) :=
  l.filter (fun p => p.1 ≠ k)

/-! ## Timestamp collection and the binary search counter -/

/-- One step of the stable ascending insertion used to model
timestamps.sort(key=lambda x: x[0]) (main.py:291): the element is placed
before the first entry with a strictly larger timestamp, so entries with
equal timestamps keep their relative order. -/
def insert_by_time (p : Int × String) : List (Int × String) → List (Int × String)
  | [] => [p]
  | q :: t => if q.1 < p.1 then q :: insert_by_time p t else p :: q :: t

/-- bulk_collect_file_timestamps (main.py:245) restricted to its
observable effect: the already-filtered directory entries are returned
sorted ascending by modification time (stably). -/
def bulk_collect_file_timestamps (entries : List (Int × String)) : List (Int × String) :=
  entries.foldr insert_by_time []

/-- The loop of Python bisect.bisect_left(a, x): lo/hi bisection keeping
the leftmost insertion point.  The fuel argument only bounds the number of
iterations; hi - lo shrinks on every pass, so fuel = a.length always
suffices. -/
def bisectLeftLoop (a : List Int) (x : Int) : Nat → Nat → Nat → Nat
  | 0, lo, _ => lo
  | fuel + 1, lo, hi =>
    if lo < hi then
      if a.getD ((lo + hi) / 2) 0 < x then bisectLeftLoop a x fuel ((lo + hi) / 2 + 1) hi
      else bisectLeftLoop a x fuel lo ((lo + hi) / 2)
    else lo

/-- bisect.bisect_left(a, x) as called at main.py:317. -/
def bisect_left (a : List Int) (x : Int) : Nat :=
  bisectLeftLoop a x a.length 0 a.length

/-- binary_search_file_count (main.py:302). -/
def binary_search_file_count (timestamps : List (Int × String)) (cutoff_timestamp : Int) :
    FileCounts :=
  if timestamps.isEmpty then ⟨0, 0, 0⟩
  else
    let total_files := timestamps.length
    let cutoff_index := bisect_left (timestamps.map Prod.fst) cutoff_timestamp
    { total_files := total_files
      historical_files := cutoff_index
      new_files := total_files - cutoff_index }

/-- The number of timestamps strictly below the cutoff. -/
def countBelow (a : List Int) (x : Int) : Nat :=
  a.countP (fun t => decide (t < x))

/-- A timestamp list sorted ascending (what bulk collection guarantees). -/
def SortedByTime (l : List (Int × String)) : Prop :=
  (l.map Prod.fst).Pairwise (· ≤ ·)

instance (l : List (Int × String)) : Decidable (SortedByTime l) := by
  unfold SortedByTime
  infer_instance

/-! ## Correctness of the bisect model -/

theorem countBelow_le_length (a : List Int) (x : Int) : countBelow a x ≤ a.length :=
  List.countP_le_length _

theorem countBelow_eq_zero_of_le (a : List Int) (x : Int) (h : ∀ t ∈ a, x ≤ t) :
    countBelow a x = 0 := by
  apply List.countP_eq_zero.mpr
  intro t ht
  simpa using not_lt.mpr (h t ht)

/-- In a sorted list every index below countBelow holds a value < x. -/
theorem getD_lt_of_lt_countBelow (a : List Int) (x : Int)
    (hs : a.Pairwise (· ≤ ·)) :
    ∀ i, i < countBelow a x → a.getD i 0 < x := by
  induction a with
  | nil => simp [countBelow]
  | cons t ts ih =>
    rcases List.pairwise_cons.mp hs with ⟨hall, hts⟩
    intro i hi
    by_cases hx : t < x
    · cases i with
      | zero => simpa using hx
      | succ j =>
        have e1 : decide (t < x) = true := decide_eq_true hx
        have hj : j < countBelow ts x := by
          simp only [countBelow] at hi ⊢
          simp only [List.countP_cons, e1, if_true] at hi
          omega
        simpa using ih hts j hj
    · have hz : countBelow (t :: ts) x = 0 := by
        apply List.countP_eq_zero.mpr
        intro b hb
        rcases List.mem_cons.mp hb with hb | hb
        · subst hb; simpa using hx
        · have : t ≤ b := hall b hb
          have : ¬ b < x := by
            intro hbx
            exact hx (lt_of_le_of_lt this hbx)
          simpa using this
      omega

/-- In a sorted list every index at or past countBelow holds a value ≥ x. -/
theorem le_getD_of_countBelow_le (a : List Int) (x : Int)
    (hs : a.Pairwise (· ≤ ·)) :
    ∀ i, countBelow a x ≤ i → i < a.length → x ≤ a.getD i 0 := by
  induction a with
  | nil => simp
  | cons t ts ih =>
    rcases List.pairwise_cons.mp hs with ⟨hall, hts⟩
    intro i hk hi
    by_cases hx : t < x
    · have e1 : decide (t < x) = true := decide_eq_true hx
      have hk' : countBelow (t :: ts) x = countBelow ts x + 1 := by
        simp [countBelow, List.countP_cons, e1]
      cases i with
      | zero => omega
      | succ j =>
        have : countBelow ts x ≤ j := by omega
        have hj : j < ts.length := by simpa using hi
        simpa using ih hts j this hj
    · cases i with
      | zero => simpa using not_lt.mp hx
      | succ j =>
        have hj : j < ts.length := by simpa using hi
        have hmem : ts.getD j 0 ∈ ts := by
          rw [List.getD_eq_getElem _ _ hj]
          exact List.getElem_mem hj
        have : t ≤ ts.getD j 0 := hall _ hmem
        have hxt : x ≤ t := not_lt.mp hx
        simpa using le_trans hxt this

theorem bisectLeftLoop_le_hi (a : List Int) (x : Int) :
    ∀ fuel lo hi, lo ≤ hi → bisectLeftLoop a x fuel lo hi ≤ hi := by
  intro fuel
  induction fuel with
  | zero => intro lo hi h; simpa [bisectLeftLoop] using h
  | succ n ih =>
    intro lo hi h
    by_cases hlh : lo < hi
    · simp only [bisectLeftLoop, hlh, if_true]
      by_cases hmid : a.getD ((lo + hi) / 2) 0 < x
      · rw [if_pos hmid]; exact ih _ _ (by omega)
      · rw [if_neg hmid]
        exact le_trans (ih _ _ (by omega)) (by omega)
    · simpa [bisectLeftLoop, hlh] using h

theorem bisectLeftLoop_eq_countBelow (a : List Int) (x : Int)
    (hs : a.Pairwise (· ≤ ·)) :
    ∀ fuel lo hi, hi - lo ≤ fuel → lo ≤ countBelow a x → countBelow a x ≤ hi →
      hi ≤ a.length → bisectLeftLoop a x fuel lo hi = countBelow a x := by
  intro fuel
  induction fuel with
  | zero =>
    intro lo hi h1 h2 h3 h4
    simp only [bisectLeftLoop]
    omega
  | succ n ih =>
    intro lo hi h1 h2 h3 h4
    by_cases hlh : lo < hi
    · simp only [bisectLeftLoop, hlh, if_true]
      by_cases hmid : a.getD ((lo + hi) / 2) 0 < x
      · rw [if_pos hmid]
        have hlt : (lo + hi) / 2 < countBelow a x := by
          by_contra hcon
          have hge : countBelow a x ≤ (lo + hi) / 2 := by omega
          have := le_getD_of_countBelow_le a x hs ((lo + hi) / 2) hge (by omega)
          exact absurd hmid (not_lt.mpr this)
        exact ih _ _ (by omega) (by omega) h3 h4
      · rw [if_neg hmid]
        have hle : countBelow a x ≤ (lo + hi) / 2 := by
          by_contra hcon
          have hlt : (lo + hi) / 2 < countBelow a x := by omega
          have := getD_lt_of_lt_countBelow a x hs ((lo + hi) / 2) hlt
          exact hmid this
        exact ih _ _ (by omega) h2 hle (by omega)
    · simp only [bisectLeftLoop, hlh, if_false]
      omega

/-- On a sorted list, the modelled bisect_left returns exactly the number
of elements strictly below the probe. -/
theorem bisect_left_eq_countBelow (a : List Int) (x : Int)
    (hs : a.Pairwise (· ≤ ·)) :
    bisect_left a x = countBelow a x := by
  apply bisectLeftLoop_eq_countBelow a x hs a.length 0 a.length
  · omega
  · omega
  · exact countBelow_le_length a x
  · omega

theorem bisect_left_le_length (a : List Int) (x : Int) :
    bisect_left a x ≤ a.length :=
  bisectLeftLoop_le_hi a x a.length 0 a.length (by omega)

/-! ## Characterization of binary_search_file_count on sorted input -/

theorem bsfc_total (l : List (Int × String)) (c : Int) :
    (binary_search_file_count l c).total_files = l.length := by
  by_cases h : l.isEmpty
  · have : l = [] := List.isEmpty_iff.mp h
    subst this
    simp [binary_search_file_count]
  · simp [binary_search_file_count, h]

theorem bsfc_historical (l : List (Int × String)) (c : Int) (hs : SortedByTime l) :
    (binary_search_file_count l c).historical_files
      = l.countP (fun p => decide (p.1 < c)) := by
  by_cases h : l.isEmpty
  · have : l = [] := List.isEmpty_iff.mp h
    subst this
    simp [binary_search_file_count]
  · simp only [binary_search_file_count, h, if_false]
    rw [bisect_left_eq_countBelow _ _ hs]
    simp [countBelow, List.countP_map, Function.comp_def]

theorem bsfc_historical_le_total (l : List (Int × String)) (c : Int) :
    (binary_search_file_count l c).historical_files
      ≤ (binary_search_file_count l c).total_files := by
  by_cases h : l.isEmpty
  · have : l = [] := List.isEmpty_iff.mp h
    subst this
    simp [binary_search_file_count]
  · simp only [binary_search_file_count, h, if_false]
    simpa using bisect_left_le_length (l.map Prod.fst) c

theorem bsfc_hist_add_new (l : List (Int × String)) (c : Int) :
    (binary_search_file_count l c).historical_files
      + (binary_search_file_count l c).new_files
      = (binary_search_file_count l c).total_files := by
  by_cases he : l.isEmpty
  · have : l = [] := List.isEmpty_iff.mp he
    subst this
    simp [binary_search_file_count]
  · have hle := bisect_left_le_length (l.map Prod.fst) c
    simp only [List.length_map] at hle
    simp only [binary_search_file_count, he, Bool.false_eq_true, if_false]
    omega

theorem countP_lt_add_countP_ge (l : List (Int × String)) (c : Int) :
    l.countP (fun p => decide (p.1 < c)) + l.countP (fun p => decide (c ≤ p.1))
      = l.length := by
  induction l with
  | nil => simp
  | cons p t ih =>
    by_cases hp : p.1 < c
    · have e1 : decide (p.1 < c) = true := decide_eq_true hp
      have e2 : decide (c ≤ p.1) = false := decide_eq_false (not_le.mpr hp)
      simp only [List.countP_cons, e1, e2, Bool.false_eq_true, if_true, if_false,
        List.length_cons]
      omega
    · have e1 : decide (p.1 < c) = false := decide_eq_false hp
      have e2 : decide (c ≤ p.1) = true := decide_eq_true (not_lt.mp hp)
      simp only [List.countP_cons, e1, e2, Bool.false_eq_true, if_true, if_false,
        List.length_cons]
      omega

theorem bsfc_new (l : List (Int × String)) (c : Int) (hs : SortedByTime l) :
    (binary_search_file_count l c).new_files
      = l.countP (fun p => decide (c ≤ p.1)) := by
  have htot := bsfc_total l c
  have hhist := bsfc_historical l c hs
  have hsum := bsfc_hist_add_new l c
  have hsplit := countP_lt_add_countP_ge l c
  omega

/-! ## The advancement engine and approval workflow (main.py:456-694) -/

/-- The tier immediately following a tier in the fixed sequence
24h, 12h, 6h, 3h, 2h (2h terminal).  This is the spec-side description of
the elif chain of check_and_handle_tier_advancement. -/
def next_tier : String → Option String
  | "24h" => some "12h"
  | "12h" => some "6h"
  | "6h" => some "3h"
  | "3h" => some "2h"
  | _ => none

/-- The elif chain of check_and_handle_tier_advancement (main.py:532-539):
which tier, if any, the device is eligible to advance to. -/
def eligible_tier (req : TierRequirements) (current_tier : String) (count : Nat) :
    Option String :=
  if current_tier = "24h" ∧ req.req24h_to_12h ≤ count then some "12h"
  else if current_tier = "12h" ∧ req.req12h_to_6h ≤ count then some "6h"
  else if current_tier = "6h" ∧ req.req6h_to_3h ≤ count then some "3h"
  else if current_tier = "3h" ∧ req.req3h_to_2h ≤ count then some "2h"
  else none

/-- create_approval_request (main.py:563).  The uuid-generated id is a
parameter; the informational fields (requested_by, production_mode, ...)
are omitted. -/
def create_approval_request (newId : String) (now : Int) (device_name : String)
    (current_tier : String) (new_tier : String) (count : Nat)
    (pa : PendingApprovals) : String × PendingApprovals :=
  let req : ApprovalRequest :=
    { approval_id := newId
      device_name := device_name
      current_tier := current_tier
      proposed_tier := new_tier
      unit_count := count
      request_date := now
      status := "PENDING"
      decision_date := none
      approver := none }
  (newId, { pa with pending := setKey newId req pa.pending })

/-- check_and_handle_tier_advancement (main.py:520).  Email notification
is external and has no effect on the stores. -/
def check_and_handle_tier_advancement (cfg : Config) (newId : String) (now : Int)
    (device_name : String) (ds : DeviceState) (pa : PendingApprovals) :
    DeviceState × PendingApprovals :=
  if ds.current_tier ∈ cfg.excluded_tiers then (ds, pa)
  else
    match eligible_tier cfg.tier_requirements ds.current_tier ds.count with
    | none => (ds, pa)
    | some et =>
      if et ≠ ds.current_tier then
        let r := create_approval_request newId now device_name ds.current_tier et ds.count pa
        ({ ds with approval_status := "PENDING_APPROVAL", pending_approval_id := some r.1 },
          r.2)
      else (ds, pa)

/-- initialize_device_state (main.py:495). -/
def initialize_device_state (dcfg : DeviceConfig) (now : Int) : DeviceState :=
  { current_tier := dcfg.current_tier
    count := 0
    tier_start_date := now
    approval_status := "NONE"
    total_files := 0
    historical_files := 0
    device_production_start_date := dcfg.production_start_date
    pending_approval_id := none }

/-- update_device_state (main.py:456). -/
def update_device_state (cfg : Config) (dcfg : DeviceConfig) (newId : String) (now : Int)
    (device_name : String) (fc : FileCounts) (st : ScanState) (pa : PendingApprovals) :
    ScanState × PendingApprovals :=
  let ds0 :=
    match lookupKey device_name st.devices with
    | some ds => ds
    | none => initialize_device_state dcfg now
  let ds1 := { ds0 with
    total_files := fc.total_files
    historical_files := fc.historical_files
    device_production_start_date := dcfg.production_start_date }
  if ds1.approval_status = "PENDING_APPROVAL" then
    ({ st with devices := setKey device_name ds1 st.devices }, pa)
  else
    let ds2 := { ds1 with count := ds1.count + fc.new_files }
    let r := check_and_handle_tier_advancement cfg newId now device_name ds2 pa
    ({ st with devices := setKey device_name r.1 st.devices }, r.2)

/-- scan_device_optimized (main.py:335).  The directory contents (already
filtered by fast_file_filter) and the existence of the BIU folder are
inputs; a missing last_scan reads as instant 0 (the code would only reach
that read after bootstrap completion, which records last_scan). -/
def scan_device_optimized (cfg : Config) (dcfg : DeviceConfig) (biu_exists : Bool)
    (entries : List (Int × String)) (st : ScanState) (device_name : String) :
    FileCounts :=
  if ¬ dcfg.enabled then ⟨0, 0, 0⟩
  else if ¬ biu_exists then ⟨0, 0, 0⟩
  else
    let timestamps := bulk_collect_file_timestamps entries
    if timestamps.isEmpty then ⟨0, 0, 0⟩
    else
      let is_pending : Bool :=
        match lookupKey device_name st.devices with
        | some ds => ds.approval_status = "PENDING_APPROVAL"
        | none => false
      if is_pending then ⟨timestamps.length, timestamps.length, 0⟩
      else if ¬ st.bootstrap_completed then
        if cfg.bootstrap_mode then ⟨timestamps.length, timestamps.length, 0⟩
        else binary_search_file_count timestamps dcfg.production_start_date
      else binary_search_file_count timestamps (st.last_scan.getD 0)

/-- The per-cycle inputs for one device: its name, configuration, its BIU
folder state and the approval id that uuid4 would produce for it. -/
structure DeviceInput where
  name : String
  dcfg : DeviceConfig
  biu_exists : Bool
  entries : List (Int × String)
  newId : String
deriving Repr, DecidableEq

/-- One iteration of the device loop of scan_all_devices (main.py:438-444);
disabled devices are not visited by the loop. -/
def scan_one_device (cfg : Config) (now : Int) (s : ScanState × PendingApprovals)
    (d : DeviceInput) : ScanState × PendingApprovals :=
  if d.dcfg.enabled then
    let fc := scan_device_optimized cfg d.dcfg d.biu_exists d.entries s.1 d.name
    update_device_state cfg d.dcfg d.newId now d.name fc s.1 s.2
  else s

/-- scan_all_devices (main.py:421). -/
def scan_all_devices (cfg : Config) (now : Int) (devs : List DeviceInput)
    (st : ScanState) (pa : PendingApprovals) : ScanState × PendingApprovals :=
  devs.foldl (scan_one_device cfg now) (st, pa)

/-- run_scan (main.py:732): scan all devices; if no device was enabled the
run returns early (main.py:748) leaving the stores untouched; otherwise
bootstrap completion is recorded, the consumed bootstrap flag is cleared
from the configuration (main.py:753-771), and last_scan is set to the
instant at which this run started. -/
def run_scan (cfg : Config) (now : Int) (devs : List DeviceInput)
    (st : ScanState) (pa : PendingApprovals) :
    Config × ScanState × PendingApprovals :=
  let r := scan_all_devices cfg now devs st pa
  if (devs.filter (fun d => d.dcfg.enabled)).isEmpty then (cfg, r.1, r.2)
  else
    let cfg2 := if ¬ r.1.bootstrap_completed then { cfg with bootstrap_mode := false } else cfg
    let st2 := if ¬ r.1.bootstrap_completed then { r.1 with bootstrap_completed := true } else r.1
    (cfg2, { st2 with last_scan := some now }, r.2)

/-- process_approval_decision (main.py:657).  Returns none when the code
would raise KeyError (request references a device missing from the state
document); otherwise some (return value, new state, new approvals). -/
def process_approval_decision (st : ScanState) (pa : PendingApprovals)
    (approval_id : String) (decision : String) (approver : String) (now : Int) :
    Option (Bool × ScanState × PendingApprovals) :=
  match lookupKey approval_id pa.pending with
  | none => some (false, st, pa)
  | some req =>
    match lookupKey req.device_name st.devices with
    | none => none
    | some ds =>
      let ds1 :=
        if decision = "APPROVE" then
          { ds with
            current_tier := req.proposed_tier
            count := 0
            tier_start_date := now
            approval_status := "APPROVED" }
        else if decision = "REJECT" then
          { ds with
            count := 0
            tier_start_date := now
            approval_status := "REJECTED" }
        else ds
      let req2 := { req with
        status := decision
        decision_date := some now
        approver := some approver }
      let ds2 := { ds1 with pending_approval_id := none }
      some (true,
        { st with devices := setKey req.device_name ds2 st.devices },
        { pending := removeKey approval_id pa.pending,
          history := pa.history ++ [req2] })

/-- A sequence of completed scan cycles (each with its start instant and
per-device inputs). -/
def run_cycles (cycles : List (Int × List DeviceInput))
    (s : Config × ScanState × PendingApprovals) :
    Config × ScanState × PendingApprovals :=
  cycles.foldl (fun s c => run_scan s.1 c.1 c.2 s.2.1 s.2.2) s

/-- One externally observable transition of the system: a batch scan
invocation, or one approval resolution through the approval surface. -/
inductive Step where
  | scan (now : Int) (devs : List DeviceInput)
  | resolve (id : String) (decision : String) (approver : String) (now : Int)

/-- Effect of a step on the persisted documents.  A resolution that would
raise KeyError leaves the persisted state unchanged (the exception
propagates before any save). -/
def applyStep (s : Config × ScanState × PendingApprovals) (step : Step) :
    Config × ScanState × PendingApprovals :=
  match step with
  | .scan now devs => run_scan s.1 now devs s.2.1 s.2.2
  | .resolve id decision approver now =>
    match process_approval_decision s.2.1 s.2.2 id decision approver now with
    | some r => (s.1, r.2.1, r.2.2)
    | none => s

/-- The initial persisted documents (create_initial_state, main.py:185,
and load_pending_approvals, main.py:203). -/
def initState (cfg0 : Config) : Config × ScanState × PendingApprovals :=
  (cfg0, { last_scan := none, bootstrap_completed := false, devices := [] },
    { pending := [], history := [] })

/-- States reachable from a fresh deployment by scans and resolutions. -/
inductive Reachable (cfg0 : Config) : Config × ScanState × PendingApprovals → Prop where
  | init : Reachable cfg0 (initState cfg0)
  | step {s : Config × ScanState × PendingApprovals} (stp : Step) :
      Reachable cfg0 s → Reachable cfg0 (applyStep s stp)

/-! ## Association list lemmas -/

theorem lookupKey_setKey_self {α : Type} (k : String) (v : α) (l : List (String × α)) :
    lookupKey k (setKey k v l) = some v := by
  induction l with
  | nil => simp [setKey, lookupKey]
  | cons p t ih =>
    by_cases h : p.1 = k
    · simp [setKey, h, lookupKey]
    · simp [setKey, h, lookupKey, ih]

theorem lookupKey_setKey_ne {α : Type} (k k2 : String) (v : α) (l : List (String × α))
    (h : k2 ≠ k) : lookupKey k2 (setKey k v l) = lookupKey k2 l := by
  have hk : ¬ k = k2 := fun h2 => h h2.symm
  induction l with
  | nil => simp [setKey, lookupKey, hk]
  | cons p t ih =>
    by_cases hp : p.1 = k
    · have hp2 : ¬ p.1 = k2 := by rw [hp]; exact hk
      simp [setKey, hp, lookupKey, hk, hp2]
    · simp [setKey, hp, lookupKey, ih]

theorem mem_setKey {α : Type} (k : String) (v : α) (l : List (String × α)) :
    ∀ p ∈ setKey k v l, p = (k, v) ∨ p ∈ l := by
  induction l with
  | nil => simp [setKey]
  | cons q t ih =>
    intro p hp
    by_cases hq : q.1 = k
    · simp only [setKey, hq, if_true] at hp
      rcases List.mem_cons.mp hp with h | h
      · exact Or.inl h
      · exact Or.inr (List.mem_cons_of_mem _ h)
    · simp only [setKey, hq, if_false] at hp
      rcases List.mem_cons.mp hp with h | h
      · exact Or.inr (h ▸ List.mem_cons_self q t)
      · rcases ih p h with h2 | h2
        · exact Or.inl h2
        · exact Or.inr (List.mem_cons_of_mem _ h2)

theorem mem_removeKey {α : Type} (k : String) (l : List (String × α)) :
    ∀ p ∈ removeKey k l, p ∈ l ∧ p.1 ≠ k := by
  intro p hp
  simp only [removeKey, List.mem_filter, decide_eq_true_eq] at hp
  exact ⟨hp.1, by simpa using hp.2⟩

theorem lookupKey_mem {α : Type} (k : String) (l : List (String × α)) (v : α)
    (h : lookupKey k l = some v) : (k, v) ∈ l := by
  induction l with
  | nil => simp [lookupKey] at h
  | cons p t ih =>
    by_cases hp : p.1 = k
    · simp only [lookupKey, hp, if_true, Option.some.injEq] at h
      subst h
      have : p = (k, p.2) := by
        cases p
        simp_all
      exact this ▸ List.mem_cons_self p t
    · simp only [lookupKey, hp, if_false] at h
      exact List.mem_cons_of_mem _ (ih h)

theorem countP_setKey_le_of_not {α : Type} (q : String × α → Bool) (k : String) (v : α)
    (l : List (String × α)) (h : q (k, v) = false) :
    (setKey k v l).countP q ≤ l.countP q := by
  induction l with
  | nil => simp [setKey, List.countP_cons, h]
  | cons p t ih =>
    by_cases hp : p.1 = k
    · simp only [setKey, hp, if_true, List.countP_cons, h, Bool.false_eq_true, if_false]
      omega
    · simp only [setKey, hp, if_false, List.countP_cons]
      omega

theorem countP_setKey_le_one {α : Type} (q : String × α → Bool) (k : String) (v : α)
    (l : List (String × α)) (h : ∀ p ∈ l, q p = false) :
    (setKey k v l).countP q ≤ 1 := by
  induction l with
  | nil =>
    simp only [setKey, List.countP_cons, List.countP_nil]
    split <;> omega
  | cons p t ih =>
    have hp0 : q p = false := h p (List.mem_cons_self p t)
    have ht : ∀ r ∈ t, q r = false := fun r hr => h r (List.mem_cons_of_mem _ hr)
    by_cases hp : p.1 = k
    · have hz : t.countP q = 0 := List.countP_eq_zero.mpr (by
        intro r hr
        simp [ht r hr])
      simp only [setKey, hp, if_true, List.countP_cons, hz]
      split <;> omega
    · simp only [setKey, hp, if_false, List.countP_cons, hp0, Bool.false_eq_true, if_false]
      exact ih ht

theorem countP_removeKey_le {α : Type} (q : String × α → Bool) (k : String)
    (l : List (String × α)) : (removeKey k l).countP q ≤ l.countP q :=
  (List.filter_sublist l).countP_le q

theorem two_le_countP_of_mem {α : Type} (q : α → Bool) (l : List α)
    (a b : α) (ha : a ∈ l) (hb : b ∈ l) (hab : a ≠ b)
    (hqa : q a = true) (hqb : q b = true) : 2 ≤ l.countP q := by
  induction l with
  | nil => simp at ha
  | cons x t ih =>
    rcases List.mem_cons.mp ha with hax | hax
    · have hbt : b ∈ t := by
        rcases List.mem_cons.mp hb with hbx | hbx
        · exact absurd (hax.trans hbx.symm) hab
        · exact hbx
      have h1 : 0 < t.countP q := List.countP_pos_iff.mpr ⟨b, hbt, hqb⟩
      have hqx : q x = true := hax ▸ hqa
      simp only [List.countP_cons, hqx, if_true]
      omega
    · rcases List.mem_cons.mp hb with hbx | hbx
      · have h1 : 0 < t.countP q := List.countP_pos_iff.mpr ⟨a, hax, hqa⟩
        have hqx : q x = true := hbx ▸ hqb
        simp only [List.countP_cons, hqx, if_true]
        omega
      · have h2 := ih hax hbx
        simp only [List.countP_cons]
        omega

/-! ## Claims about the cutoff counter -/

/-- Claim C1, counterexample.  The claim asserts that a file whose
timestamp equals the cutoff is counted as historical, i.e. that
historical_files equals the number of timestamps at-or-before the cutoff.
On the single-file inbox [(5, "a")] with cutoff 5 the code returns
historical_files = 0 (the file is counted as new), while the number of
timestamps at-or-before the cutoff is 1. -/
theorem C1_counterexample :
    (binary_search_file_count [((5 : Int), "a")] 5).historical_files
        ≠ ([((5 : Int), "a")].countP (fun p => decide (p.1 ≤ (5 : Int))))
      ∧ (binary_search_file_count [((5 : Int), "a")] 5).historical_files = 0
      ∧ (binary_search_file_count [((5 : Int), "a")] 5).new_files = 1 := by
  decide

/-- Claim C1, amended: for every ascending-sorted timestamp sequence and
every cutoff, a file whose timestamp is exactly equal to the cutoff is
counted as NEW, not historical: historical_files is the number of
timestamps strictly below the cutoff and new_files the number of
timestamps at-or-after it; in particular, on a first observation files
whose timestamp equals productionStartDate are classified new. -/
theorem C1_tie_break (l : List (Int × String)) (c : Int) (hs : SortedByTime l) :
    (binary_search_file_count l c).historical_files
        = l.countP (fun p => decide (p.1 < c))
      ∧ (binary_search_file_count l c).new_files
        = l.countP (fun p => decide (c ≤ p.1)) :=
  ⟨bsfc_historical l c hs, bsfc_new l c hs⟩

/-- Witness for C1_tie_break on a concrete sorted inbox containing a file
exactly at the cutoff. -/
theorem C1_tie_break_witness :
    SortedByTime [((3 : Int), "a"), ((5 : Int), "b")]
      ∧ ((binary_search_file_count [((3 : Int), "a"), ((5 : Int), "b")] 5).historical_files
            = [((3 : Int), "a"), ((5 : Int), "b")].countP (fun p => decide (p.1 < (5 : Int)))
          ∧ (binary_search_file_count [((3 : Int), "a"), ((5 : Int), "b")] 5).new_files
            = [((3 : Int), "a"), ((5 : Int), "b")].countP (fun p => decide ((5 : Int) ≤ p.1))) :=
  ⟨by decide, C1_tie_break [((3 : Int), "a"), ((5 : Int), "b")] 5 (by decide)⟩

/-- Claim C2, counterexample.  The claim asserts a file is classified new
in an incremental scan only if its timestamp is strictly after the
previous scan instant, and hence that no file is counted as new in two
cycles.  A file with timestamp 5 equal to the cycle-k incremental cutoff 5
is classified new (1 ≠ the count 0 of strictly-later files), and across
cycle k (cutoff 3) and cycle k+1 (cutoff 5 = the recorded lastScanInstant
of cycle k) the same single file contributes 1 to new_files in both
cycles, i.e. it is counted twice. -/
theorem C2_counterexample :
    (binary_search_file_count [((5 : Int), "f")] 5).new_files
        ≠ ([((5 : Int), "f")].countP (fun p => decide ((5 : Int) < p.1)))
      ∧ (binary_search_file_count [((5 : Int), "f")] 3).new_files
          + (binary_search_file_count [((5 : Int), "f")] 5).new_files = 2 := by
  decide

/-- Claim C2, amended: a file is classified new in an incremental scan iff
its timestamp is at-or-after the previous scan instant (bisect_left
semantics); consequently a file whose timestamp is strictly before the
recorded lastScanInstant of cycle k contributes nothing in cycle k+1, but
a file whose timestamp exactly equals that instant can be counted in both
cycles. -/
theorem C2_no_recount (l1 l2 : List (Int × String)) (c1 c2 : Int)
    (hs1 : SortedByTime l1) (hs2 : SortedByTime l2) :
    (binary_search_file_count l1 c1).new_files
        = l1.countP (fun p => decide (c1 ≤ p.1))
      ∧ ((∀ p ∈ l2, p.1 < c2) → (binary_search_file_count l2 c2).new_files = 0) := by
  refine ⟨bsfc_new l1 c1 hs1, fun h => ?_⟩
  rw [bsfc_new l2 c2 hs2]
  apply List.countP_eq_zero.mpr
  intro p hp
  simpa using not_le.mpr (h p hp)

/-- Witness for C2_no_recount on concrete inboxes. -/
theorem C2_no_recount_witness :
    SortedByTime [((4 : Int), "a"), ((7 : Int), "b")]
      ∧ SortedByTime [((4 : Int), "a")]
      ∧ ((binary_search_file_count [((4 : Int), "a"), ((7 : Int), "b")] 5).new_files
            = [((4 : Int), "a"), ((7 : Int), "b")].countP (fun p => decide ((5 : Int) ≤ p.1))
          ∧ ((∀ p ∈ [((4 : Int), "a")], p.1 < (6 : Int)) →
              (binary_search_file_count [((4 : Int), "a")] 6).new_files = 0)) :=
  ⟨by decide, by decide,
    C2_no_recount [((4 : Int), "a"), ((7 : Int), "b")] [((4 : Int), "a")] 5 6
      (by decide) (by decide)⟩

/-- Claim C3: for every sorted timestamp sequence and cutoff the counter
returns total = length, historical + new = total and historical = number
of timestamps strictly below the cutoff; an empty sequence yields all
zeros, a cutoff at-or-before the earliest timestamp yields historical = 0,
and a cutoff strictly after the latest yields new = 0. -/
theorem C3_count_contract (l : List (Int × String)) (c : Int) (hs : SortedByTime l) :
    (binary_search_file_count l c).total_files = l.length
      ∧ (binary_search_file_count l c).historical_files
          + (binary_search_file_count l c).new_files
          = (binary_search_file_count l c).total_files
      ∧ (binary_search_file_count l c).historical_files
          = l.countP (fun p => decide (p.1 < c))
      ∧ (l = [] → binary_search_file_count l c = ⟨0, 0, 0⟩)
      ∧ ((∀ p ∈ l, c ≤ p.1) → (binary_search_file_count l c).historical_files = 0)
      ∧ ((∀ p ∈ l, p.1 < c) → (binary_search_file_count l c).new_files = 0) := by
  refine ⟨bsfc_total l c, bsfc_hist_add_new l c, bsfc_historical l c hs, ?_, ?_, ?_⟩
  · intro h
    subst h
    rfl
  · intro h
    rw [bsfc_historical l c hs]
    apply List.countP_eq_zero.mpr
    intro p hp
    simpa using not_lt.mpr (h p hp)
  · intro h
    rw [bsfc_new l c hs]
    apply List.countP_eq_zero.mpr
    intro p hp
    simpa using not_le.mpr (h p hp)

/-- Witness for C3_count_contract on a concrete sorted inbox. -/
theorem C3_count_contract_witness :
    SortedByTime [((1 : Int), "a"), ((2 : Int), "b"), ((2 : Int), "c")]
      ∧ ((binary_search_file_count [((1 : Int), "a"), ((2 : Int), "b"), ((2 : Int), "c")] 2).total_files
            = ([((1 : Int), "a"), ((2 : Int), "b"), ((2 : Int), "c")] : List (Int × String)).length
          ∧ (binary_search_file_count [((1 : Int), "a"), ((2 : Int), "b"), ((2 : Int), "c")] 2).historical_files
              + (binary_search_file_count [((1 : Int), "a"), ((2 : Int), "b"), ((2 : Int), "c")] 2).new_files
              = (binary_search_file_count [((1 : Int), "a"), ((2 : Int), "b"), ((2 : Int), "c")] 2).total_files
          ∧ (binary_search_file_count [((1 : Int), "a"), ((2 : Int), "b"), ((2 : Int), "c")] 2).historical_files
              = ([((1 : Int), "a"), ((2 : Int), "b"), ((2 : Int), "c")] : List (Int × String)).countP
                  (fun p => decide (p.1 < (2 : Int)))
          ∧ (([((1 : Int), "a"), ((2 : Int), "b"), ((2 : Int), "c")] : List (Int × String)) = [] →
              binary_search_file_count [((1 : Int), "a"), ((2 : Int), "b"), ((2 : Int), "c")] 2 = ⟨0, 0, 0⟩)
          ∧ ((∀ p ∈ ([((1 : Int), "a"), ((2 : Int), "b"), ((2 : Int), "c")] : List (Int × String)), (2 : Int) ≤ p.1) →
              (binary_search_file_count [((1 : Int), "a"), ((2 : Int), "b"), ((2 : Int), "c")] 2).historical_files = 0)
          ∧ ((∀ p ∈ ([((1 : Int), "a"), ((2 : Int), "b"), ((2 : Int), "c")] : List (Int × String)), p.1 < (2 : Int)) →
              (binary_search_file_count [((1 : Int), "a"), ((2 : Int), "b"), ((2 : Int), "c")] 2).new_files = 0)) :=
  ⟨by decide, C3_count_contract [((1 : Int), "a"), ((2 : Int), "b"), ((2 : Int), "c")] 2 (by decide)⟩

theorem lookupKey_removeKey_self {α : Type} (k : String) (l : List (String × α)) :
    lookupKey k (removeKey k l) = none := by
  induction l with
  | nil => rfl
  | cons p t ih =>
    by_cases hp : p.1 = k
    · simpa [removeKey, List.filter_cons, hp] using ih
    · simpa [removeKey, List.filter_cons, hp, lookupKey] using ih

/-! ## Claims about Resolve (process_approval_decision) -/

/-- Claim C8: resolving an approval id that is not in the pending set
(including an id already moved to history) returns False and leaves both
persisted documents exactly as they were. -/
theorem C8_resolve_not_found (st : ScanState) (pa : PendingApprovals)
    (approval_id decision approver : String) (now : Int)
    (h : lookupKey approval_id pa.pending = none) :
    process_approval_decision st pa approval_id decision approver now
      = some (false, st, pa) := by
  unfold process_approval_decision
  rw [h]

/-- Witness for C8_resolve_not_found: a store whose pending set does not
hold the id (it only appears in history, as after a prior resolution). -/
theorem C8_resolve_not_found_witness :
    lookupKey "a1"
        (PendingApprovals.pending
          { pending := []
            history := [{ approval_id := "a1", device_name := "dev"
                          current_tier := "24h", proposed_tier := "12h"
                          unit_count := 3, request_date := 0, status := "APPROVE"
                          decision_date := some 1, approver := some "alice" }] }) = none
      ∧ process_approval_decision
          { last_scan := some 0, bootstrap_completed := true, devices := [] }
          { pending := []
            history := [{ approval_id := "a1", device_name := "dev"
                          current_tier := "24h", proposed_tier := "12h"
                          unit_count := 3, request_date := 0, status := "APPROVE"
                          decision_date := some 1, approver := some "alice" }] }
          "a1" "APPROVE" "bob" 7
        = some (false,
            { last_scan := some 0, bootstrap_completed := true, devices := [] },
            { pending := []
              history := [{ approval_id := "a1", device_name := "dev"
                            current_tier := "24h", proposed_tier := "12h"
                            unit_count := 3, request_date := 0, status := "APPROVE"
                            decision_date := some 1, approver := some "alice" }] }) :=
  ⟨rfl,
    C8_resolve_not_found
      { last_scan := some 0, bootstrap_completed := true, devices := [] }
      { pending := []
        history := [{ approval_id := "a1", device_name := "dev"
                      current_tier := "24h", proposed_tier := "12h"
                      unit_count := 3, request_date := 0, status := "APPROVE"
                      decision_date := some 1, approver := some "alice" }] }
      "a1" "APPROVE" "bob" 7 rfl⟩

/-- Claim C5: resolving a pending approval with decision APPROVE or REJECT
returns True and leaves the referenced device with count = 0 and
approval_status reflecting the decision; current_tier becomes the
request's proposed_tier on APPROVE and is unchanged on REJECT, so (for the
requests the engine creates, whose proposed tier differs from the current
tier) current_tier changes iff the decision is APPROVE. -/
theorem C5_resolve_decision (st : ScanState) (pa : PendingApprovals)
    (approval_id decision approver : String) (now : Int)
    (req : ApprovalRequest) (ds : DeviceState)
    (hreq : lookupKey approval_id pa.pending = some req)
    (hds : lookupKey req.device_name st.devices = some ds)
    (hdec : decision = "APPROVE" ∨ decision = "REJECT")
    (hne : req.proposed_tier ≠ ds.current_tier) :
    ∃ st2 pa2, process_approval_decision st pa approval_id decision approver now
        = some (true, st2, pa2)
      ∧ ∃ ds2, lookupKey req.device_name st2.devices = some ds2
          ∧ ds2.count = 0
          ∧ ds2.approval_status = (if decision = "APPROVE" then "APPROVED" else "REJECTED")
          ∧ ds2.current_tier
              = (if decision = "APPROVE" then req.proposed_tier else ds.current_tier)
          ∧ (ds2.current_tier ≠ ds.current_tier ↔ decision = "APPROVE") := by
  rcases hdec with hdec | hdec
  · subst hdec
    unfold process_approval_decision
    rw [hreq]
    dsimp only
    rw [hds]
    dsimp only
    refine ⟨_, _, rfl, _, lookupKey_setKey_self _ _ _, ?_, ?_, ?_, ?_⟩
    · simp
    · simp
    · simp
    · simp [hne]
  · subst hdec
    have hAR : ¬ ("REJECT" : String) = "APPROVE" := by decide
    unfold process_approval_decision
    rw [hreq]
    dsimp only
    rw [hds]
    dsimp only
    refine ⟨_, _, rfl, _, lookupKey_setKey_self _ _ _, ?_, ?_, ?_, ?_⟩
    · simp [hAR]
    · simp [hAR]
    · simp [hAR]
    · simp [hAR]

/-- Witness for C5_resolve_decision: an APPROVE resolution of a concrete
pending 24h-to-12h request. -/
theorem C5_resolve_decision_witness :
    lookupKey "a1"
        (PendingApprovals.pending
          { pending := [("a1",
              { approval_id := "a1", device_name := "dev"
                current_tier := "24h", proposed_tier := "12h"
                unit_count := 250, request_date := 4, status := "PENDING"
                decision_date := none, approver := none })]
            history := [] })
        = some { approval_id := "a1", device_name := "dev"
                 current_tier := "24h", proposed_tier := "12h"
                 unit_count := 250, request_date := 4, status := "PENDING"
                 decision_date := none, approver := none }
      ∧ (∃ st2 pa2,
          process_approval_decision
              { last_scan := some 4, bootstrap_completed := true
                devices := [("dev",
                  { current_tier := "24h", count := 250, tier_start_date := 0
                    approval_status := "PENDING_APPROVAL", total_files := 250
                    historical_files := 0, device_production_start_date := 0
                    pending_approval_id := some "a1" })] }
              { pending := [("a1",
                  { approval_id := "a1", device_name := "dev"
                    current_tier := "24h", proposed_tier := "12h"
                    unit_count := 250, request_date := 4, status := "PENDING"
                    decision_date := none, approver := none })]
                history := [] }
              "a1" "APPROVE" "alice" 9
            = some (true, st2, pa2)
          ∧ ∃ ds2, lookupKey "dev" st2.devices = some ds2
              ∧ ds2.count = 0
              ∧ ds2.approval_status
                  = (if ("APPROVE" : String) = "APPROVE" then "APPROVED" else "REJECTED")
              ∧ ds2.current_tier
                  = (if ("APPROVE" : String) = "APPROVE" then "12h" else "24h")
              ∧ (ds2.current_tier ≠ "24h" ↔ ("APPROVE" : String) = "APPROVE")) :=
  ⟨rfl,
    C5_resolve_decision
      { last_scan := some 4, bootstrap_completed := true
        devices := [("dev",
          { current_tier := "24h", count := 250, tier_start_date := 0
            approval_status := "PENDING_APPROVAL", total_files := 250
            historical_files := 0, device_production_start_date := 0
            pending_approval_id := some "a1" })] }
      { pending := [("a1",
          { approval_id := "a1", device_name := "dev"
            current_tier := "24h", proposed_tier := "12h"
            unit_count := 250, request_date := 4, status := "PENDING"
            decision_date := none, approver := none })]
        history := [] }
      "a1" "APPROVE" "alice" 9
      { approval_id := "a1", device_name := "dev"
        current_tier := "24h", proposed_tier := "12h"
        unit_count := 250, request_date := 4, status := "PENDING"
        decision_date := none, approver := none }
      { current_tier := "24h", count := 250, tier_start_date := 0
        approval_status := "PENDING_APPROVAL", total_files := 250
        historical_files := 0, device_production_start_date := 0
        pending_approval_id := some "a1" }
      rfl rfl (Or.inl rfl) (by decide)⟩

/-- Claim C10: resolving a pending approval with any decision string other
than APPROVE and REJECT still returns True, removes the request from the
pending set, appends it to history with that arbitrary string recorded as
its status, and clears the device's pending_approval_id, while the
device's count, current_tier and approval_status are left unchanged. -/
theorem C10_other_decision (st : ScanState) (pa : PendingApprovals)
    (approval_id decision approver : String) (now : Int)
    (req : ApprovalRequest) (ds : DeviceState)
    (hreq : lookupKey approval_id pa.pending = some req)
    (hds : lookupKey req.device_name st.devices = some ds)
    (hA : decision ≠ "APPROVE") (hR : decision ≠ "REJECT") :
    ∃ st2 pa2, process_approval_decision st pa approval_id decision approver now
        = some (true, st2, pa2)
      ∧ lookupKey approval_id pa2.pending = none
      ∧ pa2.history = pa.history
          ++ [{ req with
                status := decision
                decision_date := some now
                approver := some approver }]
      ∧ ∃ ds2, lookupKey req.device_name st2.devices = some ds2
          ∧ ds2.count = ds.count
          ∧ ds2.current_tier = ds.current_tier
          ∧ ds2.approval_status = ds.approval_status
          ∧ ds2.pending_approval_id = none := by
  unfold process_approval_decision
  rw [hreq]
  dsimp only
  rw [hds]
  dsimp only
  rw [if_neg hA, if_neg hR]
  exact ⟨_, _, rfl, lookupKey_removeKey_self _ _, rfl,
    _, lookupKey_setKey_self _ _ _, rfl, rfl, rfl, rfl⟩

/-- Witness for C10_other_decision: a concrete "MAYBE" decision on a
pending request, leaving the device PENDING_APPROVAL with no open request. -/
theorem C10_other_decision_witness :
    lookupKey "a2"
        (PendingApprovals.pending
          { pending := [("a2",
              { approval_id := "a2", device_name := "dev"
                current_tier := "12h", proposed_tier := "6h"
                unit_count := 100, request_date := 2, status := "PENDING"
                decision_date := none, approver := none })]
            history := [] })
        = some { approval_id := "a2", device_name := "dev"
                 current_tier := "12h", proposed_tier := "6h"
                 unit_count := 100, request_date := 2, status := "PENDING"
                 decision_date := none, approver := none }
      ∧ ("MAYBE" : String) ≠ "APPROVE"
      ∧ (∃ st2 pa2,
          process_approval_decision
              { last_scan := some 2, bootstrap_completed := true
                devices := [("dev",
                  { current_tier := "12h", count := 100, tier_start_date := 1
                    approval_status := "PENDING_APPROVAL", total_files := 120
                    historical_files := 20, device_production_start_date := 0
                    pending_approval_id := some "a2" })] }
              { pending := [("a2",
                  { approval_id := "a2", device_name := "dev"
                    current_tier := "12h", proposed_tier := "6h"
                    unit_count := 100, request_date := 2, status := "PENDING"
                    decision_date := none, approver := none })]
                history := [] }
              "a2" "MAYBE" "carol" 8
            = some (true, st2, pa2)
          ∧ lookupKey "a2" pa2.pending = none
          ∧ pa2.history = []
              ++ [{ approval_id := "a2", device_name := "dev"
                    current_tier := "12h", proposed_tier := "6h"
                    unit_count := 100, request_date := 2, status := "MAYBE"
                    decision_date := some 8, approver := some "carol" }]
          ∧ ∃ ds2, lookupKey "dev" st2.devices = some ds2
              ∧ ds2.count = 100
              ∧ ds2.current_tier = "12h"
              ∧ ds2.approval_status = "PENDING_APPROVAL"
              ∧ ds2.pending_approval_id = none) :=
  ⟨rfl, by decide,
    C10_other_decision
      { last_scan := some 2, bootstrap_completed := true
        devices := [("dev",
          { current_tier := "12h", count := 100, tier_start_date := 1
            approval_status := "PENDING_APPROVAL", total_files := 120
            historical_files := 20, device_production_start_date := 0
            pending_approval_id := some "a2" })] }
      { pending := [("a2",
          { approval_id := "a2", device_name := "dev"
            current_tier := "12h", proposed_tier := "6h"
            unit_count := 100, request_date := 2, status := "PENDING"
            decision_date := none, approver := none })]
        history := [] }
      "a2" "MAYBE" "carol" 8
      { approval_id := "a2", device_name := "dev"
        current_tier := "12h", proposed_tier := "6h"
        unit_count := 100, request_date := 2, status := "PENDING"
        decision_date := none, approver := none }
      { current_tier := "12h", count := 100, tier_start_date := 1
        approval_status := "PENDING_APPROVAL", total_files := 120
        historical_files := 20, device_production_start_date := 0
        pending_approval_id := some "a2" }
      rfl rfl (by decide) (by decide)⟩

/-! ## Structural lemmas about one scan cycle -/

/-- update_device_state only rewrites the entry of the device it is given,
and never touches last_scan or the bootstrap flag. -/
theorem update_device_state_shape (cfg : Config) (dcfg : DeviceConfig) (newId : String)
    (now : Int) (dn : String) (fc : FileCounts) (st : ScanState) (pa : PendingApprovals) :
    ∃ v, (update_device_state cfg dcfg newId now dn fc st pa).1.devices
        = setKey dn v st.devices
      ∧ (update_device_state cfg dcfg newId now dn fc st pa).1.last_scan = st.last_scan
      ∧ (update_device_state cfg dcfg newId now dn fc st pa).1.bootstrap_completed
          = st.bootstrap_completed := by
  unfold update_device_state
  dsimp only
  split
  · exact ⟨_, rfl, rfl, rfl⟩
  · exact ⟨_, rfl, rfl, rfl⟩

/-- A device that is PENDING_APPROVAL is updated for bookkeeping only:
its stored record keeps its count, approval status, tier and pending id,
with only the observational counters refreshed. -/
theorem update_device_state_pending (cfg : Config) (dcfg : DeviceConfig) (newId : String)
    (now : Int) (dn : String) (fc : FileCounts) (st : ScanState) (pa : PendingApprovals)
    (ds : DeviceState)
    (hlook : lookupKey dn st.devices = some ds)
    (hpend : ds.approval_status = "PENDING_APPROVAL") :
    update_device_state cfg dcfg newId now dn fc st pa
      = ({ st with devices := setKey dn { ds with total_files := fc.total_files, historical_files := fc.historical_files, device_production_start_date := dcfg.production_start_date } st.devices }, pa) := by
  unfold update_device_state
  rw [hlook]
  dsimp only
  rw [if_pos hpend]

/-- scan_one_device leaves a PENDING_APPROVAL device frozen: its count,
approval status, tier and pending id are unchanged (whether it is the
scanned device or another one). -/
theorem scan_one_device_pending_frozen (cfg : Config) (now : Int)
    (s : ScanState × PendingApprovals) (d : DeviceInput) (name : String) (ds : DeviceState)
    (hlook : lookupKey name s.1.devices = some ds)
    (hpend : ds.approval_status = "PENDING_APPROVAL") :
    ∃ ds2, lookupKey name (scan_one_device cfg now s d).1.devices = some ds2
      ∧ ds2.count = ds.count
      ∧ ds2.approval_status = "PENDING_APPROVAL"
      ∧ ds2.current_tier = ds.current_tier
      ∧ ds2.pending_approval_id = ds.pending_approval_id := by
  unfold scan_one_device
  by_cases hen : d.dcfg.enabled
  · rw [if_pos hen]
    by_cases hn : d.name = name
    · subst hn
      rw [update_device_state_pending cfg d.dcfg d.newId now d.name _ s.1 s.2 ds hlook hpend]
      exact ⟨_, lookupKey_setKey_self _ _ _, rfl, hpend, rfl, rfl⟩
    · rcases update_device_state_shape cfg d.dcfg d.newId now d.name
        (scan_device_optimized cfg d.dcfg d.biu_exists d.entries s.1 d.name) s.1 s.2
        with ⟨v, hdev, _, _⟩
      refine ⟨ds, ?_, rfl, hpend, rfl, rfl⟩
      rw [hdev, lookupKey_setKey_ne d.name name v s.1.devices (fun h => hn h.symm)]
      exact hlook
  · rw [if_neg hen]
    exact ⟨ds, hlook, rfl, hpend, rfl, rfl⟩

/-- scan_all_devices leaves a PENDING_APPROVAL device frozen. -/
theorem scan_all_devices_pending_frozen (cfg : Config) (now : Int)
    (devs : List DeviceInput) :
    ∀ (st : ScanState) (pa : PendingApprovals) (name : String) (ds : DeviceState),
      lookupKey name st.devices = some ds →
      ds.approval_status = "PENDING_APPROVAL" →
      ∃ ds2, lookupKey name (scan_all_devices cfg now devs st pa).1.devices = some ds2
        ∧ ds2.count = ds.count
        ∧ ds2.approval_status = "PENDING_APPROVAL"
        ∧ ds2.current_tier = ds.current_tier
        ∧ ds2.pending_approval_id = ds.pending_approval_id := by
  induction devs with
  | nil => exact fun st pa name ds h hp => ⟨ds, h, rfl, hp, rfl, rfl⟩
  | cons d t ih =>
    intro st pa name ds h hp
    rcases scan_one_device_pending_frozen cfg now (st, pa) d name ds h hp
      with ⟨ds1, h1, hc1, hp1, ht1, hi1⟩
    rcases ih (scan_one_device cfg now (st, pa) d).1
        (scan_one_device cfg now (st, pa) d).2 name ds1 h1 hp1
      with ⟨ds2, h2, hc2, hp2, ht2, hi2⟩
    exact ⟨ds2, h2, hc2.trans hc1, hp2, ht2.trans ht1, hi2.trans hi1⟩

/-- run_scan leaves a PENDING_APPROVAL device frozen. -/
theorem run_scan_pending_frozen (cfg : Config) (now : Int) (devs : List DeviceInput)
    (st : ScanState) (pa : PendingApprovals) (name : String) (ds : DeviceState)
    (hlook : lookupKey name st.devices = some ds)
    (hpend : ds.approval_status = "PENDING_APPROVAL") :
    ∃ ds2, lookupKey name (run_scan cfg now devs st pa).2.1.devices = some ds2
      ∧ ds2.count = ds.count
      ∧ ds2.approval_status = "PENDING_APPROVAL"
      ∧ ds2.current_tier = ds.current_tier
      ∧ ds2.pending_approval_id = ds.pending_approval_id := by
  rcases scan_all_devices_pending_frozen cfg now devs st pa name ds hlook hpend
    with ⟨ds2, h2, hc2, hp2, ht2, hi2⟩
  refine ⟨ds2, ?_, hc2, hp2, ht2, hi2⟩
  unfold run_scan
  dsimp only
  split
  · exact h2
  · split <;> exact h2

/-- Claim C4: for every device whose approval_status is PENDING_APPROVAL,
any number of further completed scan cycles leaves the device's count
unchanged (and the device stays PENDING_APPROVAL with the same tier and
pending approval id; its observational counters may be refreshed). -/
theorem C4_pending_freezes_count (s : Config × ScanState × PendingApprovals)
    (cycles : List (Int × List DeviceInput)) (name : String) (ds : DeviceState)
    (hlook : lookupKey name s.2.1.devices = some ds)
    (hpend : ds.approval_status = "PENDING_APPROVAL") :
    ∃ ds2, lookupKey name (run_cycles cycles s).2.1.devices = some ds2
      ∧ ds2.count = ds.count
      ∧ ds2.approval_status = "PENDING_APPROVAL"
      ∧ ds2.current_tier = ds.current_tier
      ∧ ds2.pending_approval_id = ds.pending_approval_id := by
  induction cycles generalizing s ds with
  | nil => exact ⟨ds, hlook, rfl, hpend, rfl, rfl⟩
  | cons c t ih =>
    rcases run_scan_pending_frozen s.1 c.1 c.2 s.2.1 s.2.2 name ds hlook hpend
      with ⟨ds1, h1, hc1, hp1, ht1, hi1⟩
    rcases ih (run_scan s.1 c.1 c.2 s.2.1 s.2.2) ds1 h1 hp1
      with ⟨ds2, h2, hc2, hp2, ht2, hi2⟩
    exact ⟨ds2, h2, hc2.trans hc1, hp2, ht2.trans ht1, hi2.trans hi1⟩

/-- Witness for C4_pending_freezes_count: a concrete pending device
scanned for one further cycle keeps count = 7. -/
theorem C4_pending_freezes_count_witness :
    lookupKey "dev"
        (ScanState.devices
          { last_scan := some 5, bootstrap_completed := true
            devices := [("dev",
              { current_tier := "24h", count := 7, tier_start_date := 0
                approval_status := "PENDING_APPROVAL", total_files := 7
                historical_files := 0, device_production_start_date := 0
                pending_approval_id := some "a1" })] })
        = some
          { current_tier := "24h", count := 7, tier_start_date := 0
            approval_status := "PENDING_APPROVAL", total_files := 7
            historical_files := 0, device_production_start_date := 0
            pending_approval_id := some "a1" }
      ∧ (∃ ds2,
          lookupKey "dev"
              (run_cycles
                [(10, [{ name := "dev", dcfg := { enabled := true, current_tier := "24h", production_start_date := 0 }, biu_exists := true, entries := [((6 : Int), "f")], newId := "n1" }])]
                ({ bootstrap_mode := false, excluded_tiers := [], tier_requirements := ⟨5, 5, 5, 5⟩ },
                  { last_scan := some 5, bootstrap_completed := true
                    devices := [("dev",
                      { current_tier := "24h", count := 7, tier_start_date := 0
                        approval_status := "PENDING_APPROVAL", total_files := 7
                        historical_files := 0, device_production_start_date := 0
                        pending_approval_id := some "a1" })] },
                  { pending := [], history := [] })).2.1.devices
            = some ds2
          ∧ ds2.count = 7
          ∧ ds2.approval_status = "PENDING_APPROVAL"
          ∧ ds2.current_tier = "24h"
          ∧ ds2.pending_approval_id = some "a1") :=
  ⟨rfl,
    C4_pending_freezes_count
      ({ bootstrap_mode := false, excluded_tiers := [], tier_requirements := ⟨5, 5, 5, 5⟩ },
        { last_scan := some 5, bootstrap_completed := true
          devices := [("dev",
            { current_tier := "24h", count := 7, tier_start_date := 0
              approval_status := "PENDING_APPROVAL", total_files := 7
              historical_files := 0, device_production_start_date := 0
              pending_approval_id := some "a1" })] },
        { pending := [], history := [] })
      [(10, [{ name := "dev", dcfg := { enabled := true, current_tier := "24h", production_start_date := 0 }, biu_exists := true, entries := [((6 : Int), "f")], newId := "n1" }])]
      "dev"
      { current_tier := "24h", count := 7, tier_start_date := 0
        approval_status := "PENDING_APPROVAL", total_files := 7
        historical_files := 0, device_production_start_date := 0
        pending_approval_id := some "a1" }
      rfl rfl⟩

/-! ## Claim C7: monotonicity of the observational counters -/

/-- Configuration for the C7 counterexample run: thresholds high enough
that no approval interferes, no bootstrap, no excluded tiers. -/
def c7cfg : Config :=
  { bootstrap_mode := false, excluded_tiers := [], tier_requirements := ⟨1000, 1000, 1000, 1000⟩ }

/-- The C7 device: production start at instant 10, one file at instant 5,
inbox identical (hence non-shrinking) in both cycles. -/
def c7dev : DeviceInput :=
  { name := "dev"
    dcfg := { enabled := true, current_tier := "24h", production_start_date := 10 }
    biu_exists := true
    entries := [((5 : Int), "f")]
    newId := "id1" }

/-- First scan cycle of the C7 run, started at instant 3 (before the
configured production start). -/
def c7run1 : Config × ScanState × PendingApprovals :=
  run_scan c7cfg 3 [c7dev]
    { last_scan := none, bootstrap_completed := false, devices := [] }
    { pending := [], history := [] }

/-- Second scan cycle of the C7 run, on the identical inbox. -/
def c7run2 : Config × ScanState × PendingApprovals :=
  run_scan c7run1.1 20 [c7dev] c7run1.2.1 c7run1.2.2

/-- Claim C7, counterexample.  With a non-shrinking (here: identical)
inbox, historical_files recorded for the device drops from 1 after the
first completed scan (cutoff = productionStartDate = 10, file at 5) to 0
after the second (cutoff = recorded lastScanInstant = 3, file at 5), so
historicalFiles is not monotonically non-decreasing; total_files stays 1. -/
theorem C7_counterexample :
    Option.map DeviceState.historical_files (lookupKey "dev" c7run1.2.1.devices) = some 1
      ∧ Option.map DeviceState.historical_files (lookupKey "dev" c7run2.2.1.devices) = some 0
      ∧ Option.map DeviceState.total_files (lookupKey "dev" c7run1.2.1.devices) = some 1
      ∧ Option.map DeviceState.total_files (lookupKey "dev" c7run2.2.1.devices) = some 1 := by
  decide

theorem countP_mono_pred {α : Type} (p q : α → Bool) (l : List α)
    (h : ∀ a ∈ l, p a = true → q a = true) : l.countP p ≤ l.countP q := by
  induction l with
  | nil => simp
  | cons x t ih =>
    have ht : ∀ a ∈ t, p a = true → q a = true :=
      fun a ha => h a (List.mem_cons_of_mem _ ha)
    have hih := ih ht
    by_cases hp : p x = true
    · have hq : q x = true := h x (List.mem_cons_self x t) hp
      simp only [List.countP_cons, hp, hq, if_true]
      omega
    · have hp2 : p x = false := by
        cases hpx : p x
        · rfl
        · exact absurd hpx hp
      simp only [List.countP_cons, hp2, Bool.false_eq_true, if_false]
      split <;> omega

/-- Claim C7, amended: with a non-shrinking inbox, total_files is
non-decreasing across scans; historical_files is non-decreasing provided
additionally that the later scan's cutoff is at least the earlier one's
(which the deployment normally guarantees, but which fails for example
when productionStartDate lies after the first scan instant, or when a
pending-approval bookkeeping scan forced every file historical). -/
theorem C7_monotone (l1 l2 : List (Int × String)) (c1 c2 : Int)
    (hs1 : SortedByTime l1) (hs2 : SortedByTime l2)
    (hsub : List.Sublist l1 l2) (hc : c1 ≤ c2) :
    (binary_search_file_count l1 c1).total_files
        ≤ (binary_search_file_count l2 c2).total_files
      ∧ (binary_search_file_count l1 c1).historical_files
        ≤ (binary_search_file_count l2 c2).historical_files := by
  constructor
  · rw [bsfc_total, bsfc_total]
    exact hsub.length_le
  · rw [bsfc_historical l1 c1 hs1, bsfc_historical l2 c2 hs2]
    calc l1.countP (fun p => decide (p.1 < c1))
        ≤ l2.countP (fun p => decide (p.1 < c1)) := hsub.countP_le _
      _ ≤ l2.countP (fun p => decide (p.1 < c2)) := by
          apply countP_mono_pred
          intro a _ ha
          have h1 : a.1 < c1 := of_decide_eq_true ha
          exact decide_eq_true (lt_of_lt_of_le h1 hc)

/-- Witness for C7_monotone on a concrete grown inbox and later cutoff. -/
theorem C7_monotone_witness :
    SortedByTime [((1 : Int), "a")]
      ∧ SortedByTime [((1 : Int), "a"), ((4 : Int), "b")]
      ∧ List.Sublist [((1 : Int), "a")] [((1 : Int), "a"), ((4 : Int), "b")]
      ∧ (1 : Int) ≤ 3
      ∧ ((binary_search_file_count [((1 : Int), "a")] 1).total_files
            ≤ (binary_search_file_count [((1 : Int), "a"), ((4 : Int), "b")] 3).total_files
          ∧ (binary_search_file_count [((1 : Int), "a")] 1).historical_files
            ≤ (binary_search_file_count [((1 : Int), "a"), ((4 : Int), "b")] 3).historical_files) :=
  ⟨by decide, by decide, by decide, by decide,
    C7_monotone [((1 : Int), "a")] [((1 : Int), "a"), ((4 : Int), "b")] 1 3
      (by decide) (by decide) (by decide) (by decide)⟩

/-! ## Claim C9: bootstrap semantics of the first scan -/

theorem length_insert_by_time (p : Int × String) (l : List (Int × String)) :
    (insert_by_time p l).length = l.length + 1 := by
  induction l with
  | nil => rfl
  | cons q t ih =>
    unfold insert_by_time
    split
    · simpa using ih
    · rfl

theorem length_bulk_collect (l : List (Int × String)) :
    (bulk_collect_file_timestamps l).length = l.length := by
  induction l with
  | nil => rfl
  | cons p t ih =>
    unfold bulk_collect_file_timestamps at ih ⊢
    simpa [List.foldr_cons, length_insert_by_time] using ih

theorem bulk_collect_isEmpty (l : List (Int × String)) (h : l ≠ []) :
    (bulk_collect_file_timestamps l).isEmpty = false := by
  have hl : (bulk_collect_file_timestamps l).length = l.length := length_bulk_collect l
  have : l.length ≠ 0 := fun h0 => h (List.length_eq_zero.mp h0)
  cases he : (bulk_collect_file_timestamps l).isEmpty
  · rfl
  · have := List.isEmpty_iff.mp he
    rw [this] at hl
    simp at hl
    omega

/-- On the first run with the global bootstrap flag set, an enabled
not-yet-tracked device with a nonempty inbox has every observed file
classified historical and new_files = 0. -/
theorem scan_device_bootstrap (cfg : Config) (dcfg : DeviceConfig)
    (entries : List (Int × String)) (st : ScanState) (name : String)
    (hen : dcfg.enabled = true) (hne : entries ≠ [])
    (hlook : lookupKey name st.devices = none)
    (hbc : st.bootstrap_completed = false)
    (hbm : cfg.bootstrap_mode = true) :
    scan_device_optimized cfg dcfg true entries st name
      = ⟨entries.length, entries.length, 0⟩ := by
  unfold scan_device_optimized
  rw [hen, hlook]
  have hie := bulk_collect_isEmpty entries hne
  rw [hbc, hbm]
  simp [hie, length_bulk_collect]

theorem eligible_tier_zero (r : TierRequirements) (tier : String)
    (h1 : 1 ≤ r.req24h_to_12h) (h2 : 1 ≤ r.req12h_to_6h)
    (h3 : 1 ≤ r.req6h_to_3h) (h4 : 1 ≤ r.req3h_to_2h) :
    eligible_tier r tier 0 = none := by
  unfold eligible_tier
  rw [if_neg (fun h => by omega), if_neg (fun h => by omega),
    if_neg (fun h => by omega), if_neg (fun h => by omega)]

/-- A device with count 0 and positive thresholds raises no advancement. -/
theorem check_and_handle_zero (cfg : Config) (newId : String) (now : Int)
    (dn : String) (ds : DeviceState) (pa : PendingApprovals)
    (hcount : ds.count = 0)
    (h1 : 1 ≤ cfg.tier_requirements.req24h_to_12h)
    (h2 : 1 ≤ cfg.tier_requirements.req12h_to_6h)
    (h3 : 1 ≤ cfg.tier_requirements.req6h_to_3h)
    (h4 : 1 ≤ cfg.tier_requirements.req3h_to_2h) :
    check_and_handle_tier_advancement cfg newId now dn ds pa = (ds, pa) := by
  unfold check_and_handle_tier_advancement
  split
  · rfl
  · rw [hcount, eligible_tier_zero cfg.tier_requirements ds.current_tier h1 h2 h3 h4]

/-- Updating a not-yet-tracked device with an all-historical count leaves
it at count 0, status NONE, with the observational counters set, and
creates no approval request. -/
theorem update_device_state_fresh_zero (cfg : Config) (dcfg : DeviceConfig)
    (newId : String) (now : Int) (dn : String) (st : ScanState) (pa : PendingApprovals)
    (n : Nat)
    (hlook : lookupKey dn st.devices = none)
    (h1 : 1 ≤ cfg.tier_requirements.req24h_to_12h)
    (h2 : 1 ≤ cfg.tier_requirements.req12h_to_6h)
    (h3 : 1 ≤ cfg.tier_requirements.req6h_to_3h)
    (h4 : 1 ≤ cfg.tier_requirements.req3h_to_2h) :
    update_device_state cfg dcfg newId now dn ⟨n, n, 0⟩ st pa
      = ({ st with devices := setKey dn { current_tier := dcfg.current_tier, count := 0, tier_start_date := now, approval_status := "NONE", total_files := n, historical_files := n, device_production_start_date := dcfg.production_start_date, pending_approval_id := none } st.devices }, pa) := by
  unfold update_device_state initialize_device_state
  rw [hlook]
  dsimp only
  rw [if_neg (by decide : ¬ ("NONE" : String) = "PENDING_APPROVAL")]
  rw [check_and_handle_zero cfg newId now dn _ pa rfl h1 h2 h3 h4]

/-- Any request present after check_and_handle_tier_advancement either was
already pending or is for the device just checked. -/
theorem check_and_handle_reqs (cfg : Config) (newId : String) (now : Int)
    (dn : String) (ds : DeviceState) (pa : PendingApprovals) :
    ∀ p ∈ (check_and_handle_tier_advancement cfg newId now dn ds pa).2.pending,
      p ∈ pa.pending ∨ p.2.device_name = dn := by
  unfold check_and_handle_tier_advancement create_approval_request
  split
  · exact fun p hp => Or.inl hp
  · split
    · exact fun p hp => Or.inl hp
    · split
      · intro p hp
        dsimp only at hp
        rcases mem_setKey _ _ _ p hp with h | h
        · rw [h]
          exact Or.inr rfl
        · exact Or.inl h
      · exact fun p hp => Or.inl hp

/-- Any request present after update_device_state either was already
pending or is for the updated device. -/
theorem update_device_state_reqs (cfg : Config) (dcfg : DeviceConfig) (newId : String)
    (now : Int) (dn : String) (fc : FileCounts) (st : ScanState) (pa : PendingApprovals) :
    ∀ p ∈ (update_device_state cfg dcfg newId now dn fc st pa).2.pending,
      p ∈ pa.pending ∨ p.2.device_name = dn := by
  unfold update_device_state
  dsimp only
  split
  · exact fun p hp => Or.inl hp
  · exact check_and_handle_reqs cfg newId now dn _ pa

/-- Any request present after scan_one_device either was already pending
or is for the scanned device. -/
theorem scan_one_device_reqs (cfg : Config) (now : Int)
    (s : ScanState × PendingApprovals) (d : DeviceInput) :
    ∀ p ∈ (scan_one_device cfg now s d).2.pending,
      p ∈ s.2.pending ∨ p.2.device_name = d.name := by
  unfold scan_one_device
  split
  · exact update_device_state_reqs cfg d.dcfg d.newId now d.name _ s.1 s.2
  · exact fun p hp => Or.inl hp

/-- scan_one_device does not move the devices entry of a differently named
device, nor last_scan, nor the bootstrap flag. -/
theorem scan_one_device_other (cfg : Config) (now : Int)
    (s : ScanState × PendingApprovals) (d : DeviceInput) (n : String)
    (hne : d.name ≠ n) :
    lookupKey n (scan_one_device cfg now s d).1.devices = lookupKey n s.1.devices := by
  unfold scan_one_device
  split
  · rcases update_device_state_shape cfg d.dcfg d.newId now d.name
      (scan_device_optimized cfg d.dcfg d.biu_exists d.entries s.1 d.name) s.1 s.2
      with ⟨v, hdev, _, _⟩
    rw [hdev, lookupKey_setKey_ne d.name n v s.1.devices (fun h => hne h.symm)]
  · rfl

/-- scan_one_device never changes last_scan or the bootstrap flag. -/
theorem scan_one_device_flags (cfg : Config) (now : Int)
    (s : ScanState × PendingApprovals) (d : DeviceInput) :
    (scan_one_device cfg now s d).1.last_scan = s.1.last_scan
      ∧ (scan_one_device cfg now s d).1.bootstrap_completed = s.1.bootstrap_completed := by
  unfold scan_one_device
  split
  · rcases update_device_state_shape cfg d.dcfg d.newId now d.name
      (scan_device_optimized cfg d.dcfg d.biu_exists d.entries s.1 d.name) s.1 s.2
      with ⟨v, _, hls, hbc⟩
    exact ⟨hls, hbc⟩
  · exact ⟨rfl, rfl⟩

/-- Folding the device loop over devices with other names preserves the
entry of device n, the absence of pending requests for n, and the flags. -/
theorem scan_fold_other (cfg : Config) (now : Int) (l : List DeviceInput) :
    ∀ (s : ScanState × PendingApprovals) (n : String),
      (∀ x ∈ l, x.name ≠ n) →
      lookupKey n (l.foldl (scan_one_device cfg now) s).1.devices
          = lookupKey n s.1.devices
        ∧ ((∀ p ∈ s.2.pending, p.2.device_name ≠ n) →
            ∀ p ∈ (l.foldl (scan_one_device cfg now) s).2.pending, p.2.device_name ≠ n)
        ∧ (l.foldl (scan_one_device cfg now) s).1.last_scan = s.1.last_scan
        ∧ (l.foldl (scan_one_device cfg now) s).1.bootstrap_completed
            = s.1.bootstrap_completed := by
  induction l with
  | nil => exact fun s n _ => ⟨rfl, fun h => h, rfl, rfl⟩
  | cons d t ih =>
    intro s n hall
    have hd : d.name ≠ n := hall d (List.mem_cons_self d t)
    have ht : ∀ x ∈ t, x.name ≠ n := fun x hx => hall x (List.mem_cons_of_mem _ hx)
    rcases ih (scan_one_device cfg now s d) n ht with ⟨h1, h2, h3, h4⟩
    rcases scan_one_device_flags cfg now s d with ⟨hf1, hf2⟩
    refine ⟨?_, ?_, h3.trans hf1, h4.trans hf2⟩
    · rw [List.foldl_cons] at *
      exact h1.trans (scan_one_device_other cfg now s d n hd)
    · intro hnone
      rw [List.foldl_cons]
      apply h2
      intro p hp
      rcases scan_one_device_reqs cfg now s d p hp with h | h
      · exact hnone p h
      · rw [h]
        exact hd

/-- The device loop body on an enabled device is exactly scan plus update. -/
theorem scan_one_device_enabled (cfg : Config) (now : Int)
    (s : ScanState × PendingApprovals) (d : DeviceInput) (hen : d.dcfg.enabled = true) :
    scan_one_device cfg now s d
      = update_device_state cfg d.dcfg d.newId now d.name
          (scan_device_optimized cfg d.dcfg d.biu_exists d.entries s.1 d.name) s.1 s.2 := by
  unfold scan_one_device
  rw [if_pos hen]

/-- Claim C9: on the first scan ever (bootstrap_completed = false) with
the global bootstrap flag set, every observed file of an enabled,
not-yet-tracked device with a nonempty inbox is classified historical, its
count stays 0, its status stays NONE, no approval request is created for
it under positive thresholds, and after the completed scan
bootstrap_completed is true and the bootstrap flag is cleared from the
configuration, so bootstrap is never applied again. -/
theorem C9_bootstrap_first_scan (cfg : Config) (st : ScanState) (pa : PendingApprovals)
    (now : Int) (l1 l2 : List DeviceInput) (d : DeviceInput)
    (hbc : st.bootstrap_completed = false)
    (hbm : cfg.bootstrap_mode = true)
    (hen : d.dcfg.enabled = true)
    (hbiu : d.biu_exists = true)
    (hne : d.entries ≠ [])
    (hnew : lookupKey d.name st.devices = none)
    (hl1 : ∀ x ∈ l1, x.name ≠ d.name)
    (hl2 : ∀ x ∈ l2, x.name ≠ d.name)
    (hpa : ∀ p ∈ pa.pending, p.2.device_name ≠ d.name)
    (h1 : 1 ≤ cfg.tier_requirements.req24h_to_12h)
    (h2 : 1 ≤ cfg.tier_requirements.req12h_to_6h)
    (h3 : 1 ≤ cfg.tier_requirements.req6h_to_3h)
    (h4 : 1 ≤ cfg.tier_requirements.req3h_to_2h) :
    (run_scan cfg now (l1 ++ d :: l2) st pa).1.bootstrap_mode = false
      ∧ (run_scan cfg now (l1 ++ d :: l2) st pa).2.1.bootstrap_completed = true
      ∧ (∃ ds2, lookupKey d.name (run_scan cfg now (l1 ++ d :: l2) st pa).2.1.devices
            = some ds2
          ∧ ds2.count = 0
          ∧ ds2.approval_status = "NONE"
          ∧ ds2.total_files = d.entries.length
          ∧ ds2.historical_files = d.entries.length)
      ∧ (∀ p ∈ (run_scan cfg now (l1 ++ d :: l2) st pa).2.2.pending,
          p.2.device_name ≠ d.name) := by
  rcases scan_fold_other cfg now l1 (st, pa) d.name hl1 with ⟨e1, e2, e3, e4⟩
  have hlook1 : lookupKey d.name (l1.foldl (scan_one_device cfg now) (st, pa)).1.devices
      = none := by
    rw [e1]
    exact hnew
  have hbc1 : (l1.foldl (scan_one_device cfg now) (st, pa)).1.bootstrap_completed = false := by
    rw [e4]
    exact hbc
  have hpa1 : ∀ p ∈ (l1.foldl (scan_one_device cfg now) (st, pa)).2.pending,
      p.2.device_name ≠ d.name := e2 hpa
  have hfc : scan_device_optimized cfg d.dcfg d.biu_exists d.entries
      (l1.foldl (scan_one_device cfg now) (st, pa)).1 d.name
      = ⟨d.entries.length, d.entries.length, 0⟩ := by
    rw [hbiu]
    exact scan_device_bootstrap cfg d.dcfg d.entries _ d.name hen hne hlook1 hbc1 hbm
  have hstep : scan_one_device cfg now (l1.foldl (scan_one_device cfg now) (st, pa)) d
      = ({ (l1.foldl (scan_one_device cfg now) (st, pa)).1 with devices := setKey d.name { current_tier := d.dcfg.current_tier, count := 0, tier_start_date := now, approval_status := "NONE", total_files := d.entries.length, historical_files := d.entries.length, device_production_start_date := d.dcfg.production_start_date, pending_approval_id := none } (l1.foldl (scan_one_device cfg now) (st, pa)).1.devices },
        (l1.foldl (scan_one_device cfg now) (st, pa)).2) := by
    rw [scan_one_device_enabled cfg now _ d hen, hfc]
    exact update_device_state_fresh_zero cfg d.dcfg d.newId now d.name _ _
      d.entries.length hlook1 h1 h2 h3 h4
  have hlook2 : lookupKey d.name
      (scan_one_device cfg now (l1.foldl (scan_one_device cfg now) (st, pa)) d).1.devices
      = some { current_tier := d.dcfg.current_tier, count := 0, tier_start_date := now, approval_status := "NONE", total_files := d.entries.length, historical_files := d.entries.length, device_production_start_date := d.dcfg.production_start_date, pending_approval_id := none } := by
    rw [hstep]
    exact lookupKey_setKey_self _ _ _
  have hbc2 : (scan_one_device cfg now (l1.foldl (scan_one_device cfg now) (st, pa)) d).1.bootstrap_completed = false := by
    rw [hstep]
    exact hbc1
  have hpa2 : ∀ p ∈ (scan_one_device cfg now (l1.foldl (scan_one_device cfg now) (st, pa)) d).2.pending,
      p.2.device_name ≠ d.name := by
    rw [hstep]
    exact hpa1
  rcases scan_fold_other cfg now l2
      (scan_one_device cfg now (l1.foldl (scan_one_device cfg now) (st, pa)) d) d.name hl2
    with ⟨f1, f2, f3, f4⟩
  have hr : scan_all_devices cfg now (l1 ++ d :: l2) st pa
      = l2.foldl (scan_one_device cfg now)
          (scan_one_device cfg now (l1.foldl (scan_one_device cfg now) (st, pa)) d) := by
    unfold scan_all_devices
    rw [List.foldl_append]
    rfl
  have hrbc : (scan_all_devices cfg now (l1 ++ d :: l2) st pa).1.bootstrap_completed
      = false := by
    rw [hr, f4]
    exact hbc2
  have hfil : ((l1 ++ d :: l2).filter (fun x => x.dcfg.enabled)).isEmpty = false := by
    have hd : d ∈ (l1 ++ d :: l2).filter (fun x => x.dcfg.enabled) :=
      List.mem_filter.mpr ⟨by simp, hen⟩
    cases he : ((l1 ++ d :: l2).filter (fun x => x.dcfg.enabled)).isEmpty
    · rfl
    · rw [List.isEmpty_iff.mp he] at hd
      simp at hd
  have hcond : ¬ ((l1 ++ d :: l2).filter (fun x => x.dcfg.enabled)).isEmpty = true := by
    rw [hfil]
    simp
  have hcond2 : ¬ (scan_all_devices cfg now (l1 ++ d :: l2) st pa).1.bootstrap_completed
      = true := by
    rw [hrbc]
    simp
  have hrun : run_scan cfg now (l1 ++ d :: l2) st pa
      = ({ cfg with bootstrap_mode := false },
          { last_scan := some now, bootstrap_completed := true,
            devices := (scan_all_devices cfg now (l1 ++ d :: l2) st pa).1.devices },
          (scan_all_devices cfg now (l1 ++ d :: l2) st pa).2) := by
    unfold run_scan
    dsimp only
    rw [if_neg hcond, if_pos hcond2, if_pos hcond2]
  rw [hrun]
  refine ⟨rfl, rfl,
    ⟨{ current_tier := d.dcfg.current_tier, count := 0, tier_start_date := now, approval_status := "NONE", total_files := d.entries.length, historical_files := d.entries.length, device_production_start_date := d.dcfg.production_start_date, pending_approval_id := none },
      ?_, rfl, rfl, rfl, rfl⟩, ?_⟩
  · show lookupKey d.name (scan_all_devices cfg now (l1 ++ d :: l2) st pa).1.devices = _
    rw [hr, f1]
    exact hlook2
  · show ∀ p ∈ (scan_all_devices cfg now (l1 ++ d :: l2) st pa).2.pending, _
    rw [hr]
    exact f2 hpa2

/-- Witness for C9_bootstrap_first_scan: Scenario B in miniature — first
scan ever, bootstrap enabled, threshold 250, a three-file inbox: all files
historical, count 0, no request, flag consumed. -/
theorem C9_bootstrap_first_scan_witness :
    (ScanState.bootstrap_completed
        { last_scan := none, bootstrap_completed := false, devices := [] }) = false
      ∧ (Config.bootstrap_mode
          { bootstrap_mode := true, excluded_tiers := [], tier_requirements := ⟨250, 250, 250, 250⟩ }) = true
      ∧ ([((1 : Int), "a"), ((2 : Int), "b"), ((3 : Int), "c")] : List (Int × String)) ≠ []
      ∧ ((run_scan
            { bootstrap_mode := true, excluded_tiers := [], tier_requirements := ⟨250, 250, 250, 250⟩ }
            5
            ([] ++ { name := "dev", dcfg := { enabled := true, current_tier := "24h", production_start_date := 0 }, biu_exists := true, entries := [((1 : Int), "a"), ((2 : Int), "b"), ((3 : Int), "c")], newId := "n1" } :: [])
            { last_scan := none, bootstrap_completed := false, devices := [] }
            { pending := [], history := [] }).1.bootstrap_mode = false
        ∧ (run_scan
            { bootstrap_mode := true, excluded_tiers := [], tier_requirements := ⟨250, 250, 250, 250⟩ }
            5
            ([] ++ { name := "dev", dcfg := { enabled := true, current_tier := "24h", production_start_date := 0 }, biu_exists := true, entries := [((1 : Int), "a"), ((2 : Int), "b"), ((3 : Int), "c")], newId := "n1" } :: [])
            { last_scan := none, bootstrap_completed := false, devices := [] }
            { pending := [], history := [] }).2.1.bootstrap_completed = true
        ∧ (∃ ds2, lookupKey "dev"
              (run_scan
                { bootstrap_mode := true, excluded_tiers := [], tier_requirements := ⟨250, 250, 250, 250⟩ }
                5
                ([] ++ { name := "dev", dcfg := { enabled := true, current_tier := "24h", production_start_date := 0 }, biu_exists := true, entries := [((1 : Int), "a"), ((2 : Int), "b"), ((3 : Int), "c")], newId := "n1" } :: [])
                { last_scan := none, bootstrap_completed := false, devices := [] }
                { pending := [], history := [] }).2.1.devices = some ds2
            ∧ ds2.count = 0
            ∧ ds2.approval_status = "NONE"
            ∧ ds2.total_files = ([((1 : Int), "a"), ((2 : Int), "b"), ((3 : Int), "c")] : List (Int × String)).length
            ∧ ds2.historical_files = ([((1 : Int), "a"), ((2 : Int), "b"), ((3 : Int), "c")] : List (Int × String)).length)
        ∧ (∀ p ∈ (run_scan
              { bootstrap_mode := true, excluded_tiers := [], tier_requirements := ⟨250, 250, 250, 250⟩ }
              5
              ([] ++ { name := "dev", dcfg := { enabled := true, current_tier := "24h", production_start_date := 0 }, biu_exists := true, entries := [((1 : Int), "a"), ((2 : Int), "b"), ((3 : Int), "c")], newId := "n1" } :: [])
              { last_scan := none, bootstrap_completed := false, devices := [] }
              { pending := [], history := [] }).2.2.pending,
            p.2.device_name ≠ "dev")) :=
  ⟨rfl, rfl, by decide,
    C9_bootstrap_first_scan
      { bootstrap_mode := true, excluded_tiers := [], tier_requirements := ⟨250, 250, 250, 250⟩ }
      { last_scan := none, bootstrap_completed := false, devices := [] }
      { pending := [], history := [] }
      5 [] []
      { name := "dev", dcfg := { enabled := true, current_tier := "24h", production_start_date := 0 }, biu_exists := true, entries := [((1 : Int), "a"), ((2 : Int), "b"), ((3 : Int), "c")], newId := "n1" }
      rfl rfl rfl rfl (by decide) rfl
      (by intro x hx; simp at hx) (by intro x hx; simp at hx)
      (by intro p hp; simp at hp)
      (by decide) (by decide) (by decide) (by decide)⟩

/-! ## Claim C6: the approval-workflow invariant -/

theorem eligible_tier_next (r : TierRequirements) (c : String) (n : Nat) (et : String)
    (h : eligible_tier r c n = some et) : next_tier c = some et := by
  unfold eligible_tier at h
  split_ifs at h with h1 h2 h3 h4
  · cases h
    rw [h1.1]
    rfl
  · cases h
    rw [h2.1]
    rfl
  · cases h
    rw [h3.1]
    rfl
  · cases h
    rw [h4.1]
    rfl

theorem next_tier_ne_terminal (c et : String) (h : next_tier c = some et) : c ≠ "2h" := by
  intro hc
  rw [hc] at h
  cases h

/-- The invariant linking the device records and the approval store: every
pending entry is a PENDING request whose proposed tier is the successor of
its current tier; history requests also propose successor tiers; a device
that is not PENDING_APPROVAL has no open request; every open request
references a tracked device; and no device has two open requests. -/
structure ApprovalInv (devices : List (String × DeviceState)) (pa : PendingApprovals) :
    Prop where
  pending_ok : ∀ p ∈ pa.pending, p.2.status = "PENDING"
      ∧ next_tier p.2.current_tier = some p.2.proposed_tier
  history_ok : ∀ r ∈ pa.history, next_tier r.current_tier = some r.proposed_tier
  no_req : ∀ name ds, lookupKey name devices = some ds →
      ds.approval_status ≠ "PENDING_APPROVAL" → ∀ p ∈ pa.pending, p.2.device_name ≠ name
  req_device : ∀ p ∈ pa.pending, ∃ ds, lookupKey p.2.device_name devices = some ds
  at_most_one : ∀ dname,
      pa.pending.countP (fun p => decide (p.2.device_name = dname)) ≤ 1

theorem ApprovalInv_init : ApprovalInv [] { pending := [], history := [] } := by
  refine ⟨?_, ?_, ?_, ?_, ?_⟩ <;> simp

/-- Rewriting one device entry without touching the approval store keeps
the invariant, provided a non-pending replacement still has no open
request. -/
theorem ApprovalInv_setKey_no_new (devices : List (String × DeviceState))
    (pa : PendingApprovals) (dn : String) (dsX : DeviceState)
    (hinv : ApprovalInv devices pa)
    (hstat : dsX.approval_status ≠ "PENDING_APPROVAL" →
      ∀ p ∈ pa.pending, p.2.device_name ≠ dn) :
    ApprovalInv (setKey dn dsX devices) pa := by
  refine ⟨hinv.pending_ok, hinv.history_ok, ?_, ?_, hinv.at_most_one⟩
  · intro name ds hlk hne
    by_cases hn : name = dn
    · subst hn
      rw [lookupKey_setKey_self] at hlk
      cases hlk
      exact hstat hne
    · rw [lookupKey_setKey_ne dn name dsX devices hn] at hlk
      exact hinv.no_req name ds hlk hne
  · intro p hp
    by_cases hn : p.2.device_name = dn
    · rw [hn]
      exact ⟨dsX, lookupKey_setKey_self _ _ _⟩
    · rcases hinv.req_device p hp with ⟨ds, hds⟩
      exact ⟨ds, by rw [lookupKey_setKey_ne dn _ dsX devices hn]; exact hds⟩

/-- Creating a fresh PENDING request for a device that had none, while
marking that device PENDING_APPROVAL, keeps the invariant. -/
theorem ApprovalInv_create (devices : List (String × DeviceState)) (pa : PendingApprovals)
    (dn newId : String) (dsX : DeviceState) (req : ApprovalRequest)
    (hinv : ApprovalInv devices pa)
    (hdev : req.device_name = dn) (hst : req.status = "PENDING")
    (hnext : next_tier req.current_tier = some req.proposed_tier)
    (hX : dsX.approval_status = "PENDING_APPROVAL")
    (hnone : ∀ p ∈ pa.pending, p.2.device_name ≠ dn) :
    ApprovalInv (setKey dn dsX devices)
      { pa with pending := setKey newId req pa.pending } := by
  refine ⟨?_, hinv.history_ok, ?_, ?_, ?_⟩
  · intro p hp
    rcases mem_setKey _ _ _ p hp with h | h
    · rw [h]
      exact ⟨hst, hnext⟩
    · exact hinv.pending_ok p h
  · intro name ds hlk hne p hp
    by_cases hn : name = dn
    · subst hn
      rw [lookupKey_setKey_self] at hlk
      cases hlk
      exact absurd hX hne
    · rw [lookupKey_setKey_ne dn name dsX devices hn] at hlk
      rcases mem_setKey _ _ _ p hp with h | h
      · rw [h]
        dsimp only
        rw [hdev]
        exact fun hcon => hn hcon.symm
      · exact hinv.no_req name ds hlk hne p h
  · intro p hp
    rcases mem_setKey _ _ _ p hp with h | h
    · rw [h]
      dsimp only
      rw [hdev]
      exact ⟨dsX, lookupKey_setKey_self _ _ _⟩
    · by_cases hn : p.2.device_name = dn
      · rw [hn]
        exact ⟨dsX, lookupKey_setKey_self _ _ _⟩
      · rcases hinv.req_device p h with ⟨ds, hds⟩
        exact ⟨ds, by rw [lookupKey_setKey_ne dn _ dsX devices hn]; exact hds⟩
  · intro dname
    by_cases hn : dname = dn
    · subst hn
      apply countP_setKey_le_one
      intro p hp
      exact decide_eq_false (hnone p hp)
    · calc (setKey newId req pa.pending).countP (fun p => decide (p.2.device_name = dname))
          ≤ pa.pending.countP (fun p => decide (p.2.device_name = dname)) := by
            apply countP_setKey_le_of_not
            apply decide_eq_false
            rw [hdev]
            exact fun hcon => hn hcon.symm
        _ ≤ 1 := hinv.at_most_one dname

/-- Case analysis of update_device_state on a tracked device: either the
approval store is untouched and the rewritten record keeps the old
approval status, or (only when the old status was not PENDING_APPROVAL) a
fresh PENDING successor-tier request for this device is opened and the
record becomes PENDING_APPROVAL. -/
theorem update_device_state_cases_some (cfg : Config) (dcfg : DeviceConfig)
    (newId : String) (now : Int) (dn : String) (fc : FileCounts)
    (st : ScanState) (pa : PendingApprovals) (ds : DeviceState)
    (hls : lookupKey dn st.devices = some ds) :
    ∃ dsX, (update_device_state cfg dcfg newId now dn fc st pa).1
        = { st with devices := setKey dn dsX st.devices }
      ∧ (((update_device_state cfg dcfg newId now dn fc st pa).2 = pa
            ∧ dsX.approval_status = ds.approval_status)
        ∨ (∃ req, (update_device_state cfg dcfg newId now dn fc st pa).2
              = { pa with pending := setKey newId req pa.pending }
            ∧ req.device_name = dn ∧ req.status = "PENDING"
            ∧ next_tier req.current_tier = some req.proposed_tier
            ∧ dsX.approval_status = "PENDING_APPROVAL"
            ∧ ds.approval_status ≠ "PENDING_APPROVAL")) := by
  unfold update_device_state
  rw [hls]
  dsimp only
  by_cases hp : ds.approval_status = "PENDING_APPROVAL"
  · rw [if_pos hp]
    exact ⟨_, rfl, Or.inl ⟨rfl, rfl⟩⟩
  · rw [if_neg hp]
    unfold check_and_handle_tier_advancement create_approval_request
    dsimp only
    split
    · exact ⟨_, rfl, Or.inl ⟨rfl, rfl⟩⟩
    · cases het : eligible_tier cfg.tier_requirements ds.current_tier
          (ds.count + fc.new_files) with
      | none => exact ⟨_, rfl, Or.inl ⟨rfl, rfl⟩⟩
      | some et =>
        dsimp only
        split
        · refine ⟨_, rfl, Or.inr ⟨_, rfl, rfl, rfl, ?_, rfl, hp⟩⟩
          exact eligible_tier_next cfg.tier_requirements ds.current_tier
            (ds.count + fc.new_files) et het
        · exact ⟨_, rfl, Or.inl ⟨rfl, rfl⟩⟩

/-- Case analysis of update_device_state on an untracked device: same
shape, with the freshly initialised record starting from status NONE. -/
theorem update_device_state_cases_none (cfg : Config) (dcfg : DeviceConfig)
    (newId : String) (now : Int) (dn : String) (fc : FileCounts)
    (st : ScanState) (pa : PendingApprovals)
    (hls : lookupKey dn st.devices = none) :
    ∃ dsX, (update_device_state cfg dcfg newId now dn fc st pa).1
        = { st with devices := setKey dn dsX st.devices }
      ∧ (((update_device_state cfg dcfg newId now dn fc st pa).2 = pa
            ∧ dsX.approval_status = "NONE")
        ∨ (∃ req, (update_device_state cfg dcfg newId now dn fc st pa).2
              = { pa with pending := setKey newId req pa.pending }
            ∧ req.device_name = dn ∧ req.status = "PENDING"
            ∧ next_tier req.current_tier = some req.proposed_tier
            ∧ dsX.approval_status = "PENDING_APPROVAL")) := by
  unfold update_device_state initialize_device_state
  rw [hls]
  dsimp only
  rw [if_neg (by decide : ¬ ("NONE" : String) = "PENDING_APPROVAL")]
  unfold check_and_handle_tier_advancement create_approval_request
  dsimp only
  split
  · exact ⟨_, rfl, Or.inl ⟨rfl, rfl⟩⟩
  · cases het : eligible_tier cfg.tier_requirements dcfg.current_tier
        (0 + fc.new_files) with
    | none => exact ⟨_, rfl, Or.inl ⟨rfl, rfl⟩⟩
    | some et =>
      dsimp only
      split
      · refine ⟨_, rfl, Or.inr ⟨_, rfl, rfl, rfl, ?_, rfl⟩⟩
        exact eligible_tier_next cfg.tier_requirements dcfg.current_tier
          (0 + fc.new_files) et het
      · exact ⟨_, rfl, Or.inl ⟨rfl, rfl⟩⟩

/-- update_device_state preserves the approval-workflow invariant. -/
theorem update_device_state_inv (cfg : Config) (dcfg : DeviceConfig) (newId : String)
    (now : Int) (dn : String) (fc : FileCounts) (st : ScanState) (pa : PendingApprovals)
    (hinv : ApprovalInv st.devices pa) :
    ApprovalInv (update_device_state cfg dcfg newId now dn fc st pa).1.devices
      (update_device_state cfg dcfg newId now dn fc st pa).2 := by
  cases hls : lookupKey dn st.devices with
  | some ds =>
    rcases update_device_state_cases_some cfg dcfg newId now dn fc st pa ds hls
      with ⟨dsX, h1, h2⟩
    rw [h1]
    rcases h2 with ⟨hpa, hstat⟩ | ⟨req, hpa, hdev, hst, hnext, hX, hnp⟩
    · rw [hpa]
      apply ApprovalInv_setKey_no_new st.devices pa dn dsX hinv
      intro hne
      rw [hstat] at hne
      exact hinv.no_req dn ds hls hne
    · rw [hpa]
      apply ApprovalInv_create st.devices pa dn newId dsX req hinv hdev hst hnext hX
      exact hinv.no_req dn ds hls hnp
  | none =>
    rcases update_device_state_cases_none cfg dcfg newId now dn fc st pa hls
      with ⟨dsX, h1, h2⟩
    have hnone : ∀ p ∈ pa.pending, p.2.device_name ≠ dn := by
      intro p hp hcon
      rcases hinv.req_device p hp with ⟨ds, hds⟩
      rw [hcon, hls] at hds
      cases hds
    rw [h1]
    rcases h2 with ⟨hpa, hstat⟩ | ⟨req, hpa, hdev, hst, hnext, hX⟩
    · rw [hpa]
      exact ApprovalInv_setKey_no_new st.devices pa dn dsX hinv (fun _ => hnone)
    · rw [hpa]
      exact ApprovalInv_create st.devices pa dn newId dsX req hinv hdev hst hnext hX hnone

/-- The device loop preserves the approval-workflow invariant. -/
theorem scan_one_device_inv (cfg : Config) (now : Int)
    (s : ScanState × PendingApprovals) (d : DeviceInput)
    (hinv : ApprovalInv s.1.devices s.2) :
    ApprovalInv (scan_one_device cfg now s d).1.devices (scan_one_device cfg now s d).2 := by
  unfold scan_one_device
  split
  · exact update_device_state_inv cfg d.dcfg d.newId now d.name _ s.1 s.2 hinv
  · exact hinv

/-- Folding the device loop preserves the approval-workflow invariant. -/
theorem scan_fold_inv (cfg : Config) (now : Int) (l : List DeviceInput) :
    ∀ (s : ScanState × PendingApprovals), ApprovalInv s.1.devices s.2 →
      ApprovalInv (l.foldl (scan_one_device cfg now) s).1.devices
        (l.foldl (scan_one_device cfg now) s).2 := by
  induction l with
  | nil => exact fun s h => h
  | cons d t ih =>
    intro s hinv
    exact ih (scan_one_device cfg now s d) (scan_one_device_inv cfg now s d hinv)

/-- A completed scan cycle preserves the approval-workflow invariant. -/
theorem run_scan_inv (cfg : Config) (now : Int) (devs : List DeviceInput)
    (st : ScanState) (pa : PendingApprovals)
    (hinv : ApprovalInv st.devices pa) :
    ApprovalInv (run_scan cfg now devs st pa).2.1.devices (run_scan cfg now devs st pa).2.2 := by
  have h := scan_fold_inv cfg now devs (st, pa) hinv
  unfold run_scan
  dsimp only
  split
  · exact h
  · split
    · exact h
    · exact h

/-- Resolving an approval (with any decision string) preserves the
approval-workflow invariant. -/
theorem process_approval_decision_inv (st : ScanState) (pa : PendingApprovals)
    (approval_id decision approver : String) (now : Int)
    (hinv : ApprovalInv st.devices pa) :
    ∀ r, process_approval_decision st pa approval_id decision approver now = some r →
      ApprovalInv r.2.1.devices r.2.2 := by
  intro r hr
  unfold process_approval_decision at hr
  cases hreq : lookupKey approval_id pa.pending with
  | none =>
    rw [hreq] at hr
    cases hr
    exact hinv
  | some req =>
    rw [hreq] at hr
    dsimp only at hr
    cases hds : lookupKey req.device_name st.devices with
    | none =>
      rw [hds] at hr
      cases hr
    | some ds =>
      rw [hds] at hr
      dsimp only at hr
      cases hr
      have hmem : (approval_id, req) ∈ pa.pending := lookupKey_mem _ _ _ hreq
      have hreqA : next_tier req.current_tier = some req.proposed_tier :=
        (hinv.pending_ok _ hmem).2
      refine ⟨?_, ?_, ?_, ?_, ?_⟩
      · intro p hp
        exact hinv.pending_ok p (mem_removeKey _ _ p hp).1
      · intro r2 hr2
        rcases List.mem_append.mp hr2 with h | h
        · exact hinv.history_ok r2 h
        · rcases List.mem_singleton.mp h with rfl
          exact hreqA
      · intro name ds2 hlk hne p hp
        rcases mem_removeKey _ _ p hp with ⟨hpold, hpkey⟩
        by_cases hn : name = req.device_name
        · intro hcon
          have hpne : p ≠ (approval_id, req) := by
            intro h
            rw [h] at hpkey
            exact hpkey rfl
          have h2 := two_le_countP_of_mem
            (fun q => decide (q.2.device_name = name)) pa.pending
            p (approval_id, req) hpold hmem hpne
            (decide_eq_true hcon) (decide_eq_true hn.symm)
          have h1 := hinv.at_most_one name
          omega
        · rw [lookupKey_setKey_ne req.device_name name _ st.devices hn] at hlk
          exact hinv.no_req name ds2 hlk hne p hpold
      · intro p hp
        rcases mem_removeKey _ _ p hp with ⟨hpold, _⟩
        by_cases hn : p.2.device_name = req.device_name
        · rw [hn]
          exact ⟨_, lookupKey_setKey_self _ _ _⟩
        · rcases hinv.req_device p hpold with ⟨ds2, hds2⟩
          exact ⟨ds2, by rw [lookupKey_setKey_ne req.device_name _ _ st.devices hn]; exact hds2⟩
      · intro dname
        calc (removeKey approval_id pa.pending).countP
              (fun p => decide (p.2.device_name = dname))
            ≤ pa.pending.countP (fun p => decide (p.2.device_name = dname)) :=
              countP_removeKey_le _ _ _
          _ ≤ 1 := hinv.at_most_one dname

/-- Every reachable state satisfies the approval-workflow invariant. -/
theorem reachable_inv (cfg0 : Config) (s : Config × ScanState × PendingApprovals)
    (h : Reachable cfg0 s) : ApprovalInv s.2.1.devices s.2.2 := by
  induction h with
  | init => exact ApprovalInv_init
  | step stp hs ih =>
    cases stp with
    | scan now devs => exact run_scan_inv _ now devs _ _ ih
    | resolve id decision approver now =>
      unfold applyStep
      dsimp only
      cases hp : process_approval_decision _ _ id decision approver now with
      | none => exact ih
      | some r =>
        exact process_approval_decision_inv _ _ id decision approver now ih r hp

/-- Claim C6: in every reachable state, each device has at most one open
(PENDING) approval request, every open request has status PENDING and
proposes exactly the tier following the device's tier at request time in
the fixed sequence 24h, 12h, 6h, 3h, 2h (hence none originates from the
terminal 2h tier), and the same tier-succession property holds of every
request ever created, i.e. also of every request moved to history. -/
theorem C6_single_request_next_tier (cfg0 : Config)
    (s : Config × ScanState × PendingApprovals) (h : Reachable cfg0 s) :
    (∀ dname, s.2.2.pending.countP (fun p => decide (p.2.device_name = dname)) ≤ 1)
      ∧ (∀ p ∈ s.2.2.pending, p.2.status = "PENDING"
          ∧ next_tier p.2.current_tier = some p.2.proposed_tier
          ∧ p.2.current_tier ≠ "2h")
      ∧ (∀ r ∈ s.2.2.history, next_tier r.current_tier = some r.proposed_tier
          ∧ r.current_tier ≠ "2h") := by
  have hinv := reachable_inv cfg0 s h
  refine ⟨hinv.at_most_one, ?_, ?_⟩
  · intro p hp
    rcases hinv.pending_ok p hp with ⟨h1, h2⟩
    exact ⟨h1, h2, next_tier_ne_terminal _ _ h2⟩
  · intro r hr
    have h2 := hinv.history_ok r hr
    exact ⟨h2, next_tier_ne_terminal _ _ h2⟩

/-- Witness for C6_single_request_next_tier: the state reached from a
fresh deployment by one scan in which the device crosses its threshold
(so one request is actually pending there). -/
theorem C6_single_request_next_tier_witness :
    Reachable
        { bootstrap_mode := false, excluded_tiers := [], tier_requirements := ⟨1, 1, 1, 1⟩ }
        (applyStep
          (initState { bootstrap_mode := false, excluded_tiers := [], tier_requirements := ⟨1, 1, 1, 1⟩ })
          (Step.scan 5 [{ name := "dev", dcfg := { enabled := true, current_tier := "24h", production_start_date := 0 }, biu_exists := true, entries := [((2 : Int), "a"), ((3 : Int), "b")], newId := "n1" }]))
      ∧ ((∀ dname,
            (applyStep
              (initState { bootstrap_mode := false, excluded_tiers := [], tier_requirements := ⟨1, 1, 1, 1⟩ })
              (Step.scan 5 [{ name := "dev", dcfg := { enabled := true, current_tier := "24h", production_start_date := 0 }, biu_exists := true, entries := [((2 : Int), "a"), ((3 : Int), "b")], newId := "n1" }])).2.2.pending.countP
                (fun p => decide (p.2.device_name = dname)) ≤ 1)
          ∧ (∀ p ∈ (applyStep
              (initState { bootstrap_mode := false, excluded_tiers := [], tier_requirements := ⟨1, 1, 1, 1⟩ })
              (Step.scan 5 [{ name := "dev", dcfg := { enabled := true, current_tier := "24h", production_start_date := 0 }, biu_exists := true, entries := [((2 : Int), "a"), ((3 : Int), "b")], newId := "n1" }])).2.2.pending,
              p.2.status = "PENDING"
                ∧ next_tier p.2.current_tier = some p.2.proposed_tier
                ∧ p.2.current_tier ≠ "2h")
          ∧ (∀ r ∈ (applyStep
              (initState { bootstrap_mode := false, excluded_tiers := [], tier_requirements := ⟨1, 1, 1, 1⟩ })
              (Step.scan 5 [{ name := "dev", dcfg := { enabled := true, current_tier := "24h", production_start_date := 0 }, biu_exists := true, entries := [((2 : Int), "a"), ((3 : Int), "b")], newId := "n1" }])).2.2.history,
              next_tier r.current_tier = some r.proposed_tier
                ∧ r.current_tier ≠ "2h")) :=
  ⟨Reachable.step _ Reachable.init,
    C6_single_request_next_tier
      { bootstrap_mode := false, excluded_tiers := [], tier_requirements := ⟨1, 1, 1, 1⟩ }
      _ (Reachable.step _ Reachable.init)⟩
